import Mathlib

/-!
# Verification of the JDE E1 configuration MCP server

A shallow embedding of the repository's dispatch layer:

* `call_tool` / `get_prompt` from `src/server.py` (the stdio transport's
  operation dispatch and prompt rendering),
* `execute_tool`, `JDEHandler._check_auth`, `do_GET`, `do_POST`,
  `do_OPTIONS` from `src/http_server.py` (the HTTP adapter), and
* the static knowledge tables from `src/knowledge_base.py`,
  `src/environment_config.py` and `src/troubleshooting.py`.

Python dictionaries, lists and scalars are embedded as the `JVal` type;
a Python dict is a key-ordered association list (insertion order, unique
keys).  Fallible Python operations (`d[k]`, attribute access on a value of
the wrong dynamic type) are embedded in `Except String`, the error string
standing for the exception message; the `try/except` block of `call_tool`
becomes the `Except` eliminator in `call_tool` itself.  `json.dumps` is
injective on these values, so response "text" is modeled by the JSON value
it serializes; content equality of envelopes is equality of `JVal`s.
-/

set_option maxHeartbeats 4000000
set_option maxRecDepth 8192

namespace JdeMcp

/-- JSON-like value: the dynamic values the Python server manipulates. -/
inductive JVal where
  | str (s : String)
  | num (n : Int)
  | bool (b : Bool)
  | null
  | arr (elems : List JVal)
  | obj (fields : List (String × JVal))
deriving Repr

/-- Shorthand constructor for string values. -/
def jS : String → JVal := .str

/-- Shorthand constructor for integer values. -/
def jN : Int → JVal := .num

/-- Shorthand constructor for boolean values. -/
def jB : Bool → JVal := .bool

/-- Shorthand constructor for array values. -/
def jA : List JVal → JVal := .arr

/-- Shorthand constructor for object (dict) values. -/
def jO : List (String × JVal) → JVal := .obj

mutual
/-- Structural equality on JSON values.  The embedded code only ever
compares a value against a constant of the same shape, where Python `==`
coincides with structural equality. -/
def jvalBeq : JVal → JVal → Bool
  | .str a, .str b => a == b
  | .num a, .num b => a == b
  | .bool a, .bool b => a == b
  | .null, .null => true
  | .arr a, .arr b => jvalListBeq a b
  | .obj a, .obj b => jvalFieldsBeq a b
  | _, _ => false

def jvalListBeq : List JVal → List JVal → Bool
  | [], [] => true
  | a :: as, b :: bs => jvalBeq a b && jvalListBeq as bs
  | _, _ => false

def jvalFieldsBeq : List (String × JVal) → List (String × JVal) → Bool
  | [], [] => true
  | (k, v) :: as, (k', v') :: bs => k == k' && jvalBeq v v' && jvalFieldsBeq as bs
  | _, _ => false
end

instance : BEq JVal := ⟨jvalBeq⟩

/-- Name of the Python runtime type of a value, for exception messages. -/
def pyTypeName : JVal → String
  | .str _ => "str"
  | .num _ => "int"
  | .bool _ => "bool"
  | .null => "NoneType"
  | .arr _ => "list"
  | .obj _ => "dict"

/-- Prefix test on character lists. -/
def charsStartWith : List Char → List Char → Bool
  | [], _ => true
  | _ :: _, [] => false
  | a :: as, b :: bs => a == b && charsStartWith as bs

/-- Contiguous-sublist test on character lists. -/
def charsContain (needle : List Char) : List Char → Bool
  | [] => needle.isEmpty
  | b :: bs => charsStartWith needle (b :: bs) || charsContain needle bs

/-- Python `needle in hay` substring test on strings. -/
def pyInStr (needle hay : String) : Bool :=
  charsContain needle.toList hay.toList

/-- Python `recv.get(key, dflt)` on a dynamic receiver.  Raises
`AttributeError` when the receiver is not a dict and `TypeError` when the
key is unhashable.  A hashable non-string key never matches the string
keys of the embedded dicts, so it yields the default.  (Exception
messages are modeled without Python's quote characters.) -/
def pyGet (recv : JVal) (key : JVal) (dflt : JVal) : Except String JVal :=
  match recv with
  | .obj kvs =>
    match key with
    | .str s => .ok ((List.lookup s kvs).getD dflt)
    | .arr _ => .error "TypeError: unhashable type: list"
    | .obj _ => .error "TypeError: unhashable type: dict"
    | _ => .ok dflt
  | _ => .error ("AttributeError: " ++ pyTypeName recv ++ " object has no attribute get")

/-- Python `recv.get(key, dflt)` with a string-literal key. -/
def pyGetS (recv : JVal) (key : String) (dflt : JVal) : Except String JVal :=
  pyGet recv (.str key) dflt

/-- Python subscription `recv[key]`: `KeyError` on a missing dict key,
`TypeError` on an unhashable key or a non-subscriptable receiver. -/
def pyGetItem (recv : JVal) (key : JVal) : Except String JVal :=
  match recv with
  | .obj kvs =>
    match key with
    | .str s =>
      match List.lookup s kvs with
      | some v => .ok v
      | none => .error ("KeyError: " ++ s)
    | .arr _ => .error "TypeError: unhashable type: list"
    | .obj _ => .error "TypeError: unhashable type: dict"
    | _ => .error "KeyError"
  | _ => .error ("TypeError: " ++ pyTypeName recv ++ " object is not subscriptable")

/-- Python `key in recv` for the shapes the code exercises (dict key
membership, list membership, substring test). -/
def pyIn (key : JVal) (recv : JVal) : Except String Bool :=
  match recv with
  | .obj kvs =>
    match key with
    | .str s => .ok (kvs.any (fun p => p.1 == s))
    | .arr _ => .error "TypeError: unhashable type: list"
    | .obj _ => .error "TypeError: unhashable type: dict"
    | _ => .ok false
  | .arr xs => .ok (xs.any (fun x => jvalBeq x key))
  | .str hay =>
    match key with
    | .str needle => .ok (pyInStr needle hay)
    | _ => .error "TypeError: in <string> requires string as left operand"
  | _ => .error ("TypeError: argument of type " ++ pyTypeName recv ++ " is not iterable")

/-- Mutating Python dict assignment `d[k] = v`: replaces an existing
binding in place, otherwise appends (insertion order). -/
def dictSet (kvs : List (String × JVal)) (k : String) (v : JVal) :
    List (String × JVal) :=
  if kvs.any (fun p => p.1 == k) then
    kvs.map (fun p => if p.1 == k then (k, v) else p)
  else
    kvs ++ [(k, v)]

/-- `arguments.get(k, dflt)` where `arguments` is the tool-call argument
dict (a genuine dict by the transport's contract, so this is total). -/
def argGet (args : List (String × JVal)) (k : String) (dflt : JVal) : JVal :=
  (List.lookup k args).getD dflt

/-- `arguments.get(k)`: one-argument dict lookup defaulting to `None`. -/
def argGet0 (args : List (String × JVal)) (k : String) : JVal :=
  (List.lookup k args).getD .null

/-- ASCII lowercasing of one character (all embedded data is ASCII). -/
def charLower (c : Char) : Char :=
  if 65 ≤ c.toNat && c.toNat ≤ 90 then Char.ofNat (c.toNat + 32) else c

/-- Python `s.lower()` for ASCII strings. -/
def strLower (s : String) : String :=
  String.mk (s.toList.map charLower)

/-- Python `s.lower()` on a dynamic value: `AttributeError` unless the
value is a string. -/
def pyLower (v : JVal) : Except String String :=
  match v with
  | .str s => .ok (strLower s)
  | _ => .error ("AttributeError: " ++ pyTypeName v ++ " object has no attribute lower")

/-- Worker for whitespace splitting; `acc` holds the current token reversed. -/
def wsSplitAux : List Char → List Char → List String
  | [], acc => if acc.isEmpty then [] else [String.mk acc.reverse]
  | c :: cs, acc =>
    if c.isWhitespace then
      if acc.isEmpty then wsSplitAux cs [] else String.mk acc.reverse :: wsSplitAux cs []
    else wsSplitAux cs (c :: acc)

/-- Python `s.split()`: split on whitespace runs, dropping empty pieces. -/
def pySplitWs (s : String) : List String :=
  wsSplitAux s.toList []

mutual
/-- Python `str()` of a value, as used by f-string interpolation. -/
def pyToStr : JVal → String
  | .str s => s
  | .num n => toString n
  | .bool b => if b then "True" else "False"
  | .null => "None"
  | .arr xs => "[" ++ String.intercalate ", " (pyReprList xs) ++ "]"
  | .obj kvs => "\x7b" ++ String.intercalate ", " (pyReprFields kvs) ++ "\x7d"

def pyReprList : List JVal → List String
  | [] => []
  | x :: xs => pyReprInner x :: pyReprList xs

def pyReprFields : List (String × JVal) → List String
  | [] => []
  | (k, v) :: kvs => ("'" ++ k ++ "': " ++ pyReprInner v) :: pyReprFields kvs

/-- Python `repr()` as used for elements inside containers. -/
def pyReprInner : JVal → String
  | .str s => "'" ++ s ++ "'"
  | .num n => toString n
  | .bool b => if b then "True" else "False"
  | .null => "None"
  | .arr xs => "[" ++ String.intercalate ", " (pyReprList xs) ++ "]"
  | .obj kvs => "\x7b" ++ String.intercalate ", " (pyReprFields kvs) ++ "\x7d"
end

/-- Monadic short-circuiting `any(...)`, mirroring a Python generator
expression inside `any`: effects run left to right and stop at the first
`True` (or at the first raised exception). -/
def listAnyM (p : α → Except String Bool) : List α → Except String Bool
  | [] => .ok false
  | x :: xs => do
    let b ← p x
    if b then pure true else listAnyM p xs

/-- Monadic list-comprehension filter, mirroring
`[x for x in xs if p(x)]`: the condition runs left to right and any
exception it raises propagates. -/
def listFilterM (p : JVal → Except String Bool) : List JVal → Except String (List JVal)
  | [] => .ok []
  | x :: xs => do
    let b ← p x
    let rest ← listFilterM p xs
    pure (if b then x :: rest else rest)

/-- Python `len` of a container value. -/
def jLen : JVal → Int
  | .str s => s.length
  | .arr xs => xs.length
  | .obj kvs => kvs.length
  | _ => 0

/-! ## Knowledge store: `src/knowledge_base.py` -/

/-- `INSTALLATION_PREREQUISITES` from `src/knowledge_base.py`. -/
def INSTALLATION_PREREQUISITES : JVal := jO [
  ("deployment_server", jO [
    ("windows", jO [
      ("os", jA [
        jS "Windows Server 2016 (64-bit)",
        jS "Windows Server 2019 (64-bit)",
        jS "Windows Server 2022 (64-bit)"]),
      ("runtime", jA [
        jS "Microsoft Visual C++ 2010 Runtime X86 Redistributables",
        jS "Microsoft Visual C++ 2012 Runtime X86 Redistributables",
        jS "Microsoft Visual C++ 2013 Runtime X86 Redistributables",
        jS "Microsoft .NET Framework 4.8"]),
      ("disk_space", jO [
        ("minimum", jS "50GB"),
        ("recommended", jS "100GB"),
        ("notes", jS "Additional space needed for package builds and logs")]),
      ("memory", jO [
        ("minimum", jS "16GB"),
        ("recommended", jS "32GB")]),
      ("network", jO [
        ("requirements", jA [
          jS "Static IP address",
          jS "DNS resolution to all JDE servers",
          jS "Network access to database server",
          jS "Firewall rules for JDE ports"])]),
      ("user_requirements", jA [
        jS "Local Administrator rights",
        jS "Database user with DBA privileges",
        jS "Service account for JDE services"]),
      ("notes", jS "Deployment Server handles initial setup, package builds, and ESU/ASU deployment")]),
    ("linux", jO [
      ("os", jA [
        jS "Oracle Linux 7.x (64-bit)",
        jS "Oracle Linux 8.x (64-bit)",
        jS "Red Hat Enterprise Linux 7.x (64-bit)",
        jS "Red Hat Enterprise Linux 8.x (64-bit)"]),
      ("packages", jA [
        jS "glibc.i686",
        jS "libstdc++.i686",
        jS "libaio",
        jS "unzip",
        jS "ksh"]),
      ("disk_space", jO [
        ("minimum", jS "50GB"),
        ("recommended", jS "100GB")]),
      ("memory", jO [
        ("minimum", jS "16GB"),
        ("recommended", jS "32GB")]),
      ("notes", jS "Linux Deployment Server requires additional configuration for 32-bit compatibility")])]),
  ("enterprise_server", jO [
    ("windows", jO [
      ("os", jA [
        jS "Windows Server 2016 (64-bit)",
        jS "Windows Server 2019 (64-bit)",
        jS "Windows Server 2022 (64-bit)"]),
      ("middleware", jO [
        ("weblogic", jO [
          ("versions", jA [jS "12.2.1.4", jS "14.1.1"]),
          ("notes", jS "Check Oracle Certifications for exact version requirements")]),
        ("tuxedo", jO [
          ("versions", jA [jS "12.2.2", jS "22.1"]),
          ("notes", jS "Required for batch processing and business logic")])]),
      ("java", jO [
        ("versions", jA [jS "JDK 8u301+", jS "JDK 11.0.11+"]),
        ("notes", jS "Use Oracle JDK or OpenJDK certified versions only")]),
      ("memory", jO [
        ("minimum", jS "32GB"),
        ("recommended", jS "64GB"),
        ("production", jS "128GB for high-volume environments")]),
      ("cpu", jO [
        ("minimum", jS "8 cores"),
        ("recommended", jS "16 cores")]),
      ("kernel_configuration", jO [
        ("JDENET", jS "Network kernel for JDE communications"),
        ("JDEQUEUE", jS "Queue kernel for asynchronous processing"),
        ("JDEIPC", jS "IPC kernel for inter-process communication")]),
      ("notes", jS "Enterprise Server runs business logic, batch processing, and kernel services")])]),
  ("html_server", jO [
    ("windows", jO [
      ("middleware", jO [
        ("weblogic", jO [
          ("versions", jA [jS "12.2.1.4", jS "14.1.1"]),
          ("domain_type", jS "JDE HTML Domain")]),
        ("oracle_http_server", jO [
          ("versions", jA [jS "12.2.1.4"]),
          ("notes", jS "Optional - for load balancing and SSL termination")])]),
      ("java", jO [
        ("versions", jA [jS "JDK 8u301+", jS "JDK 11.0.11+"])]),
      ("ports", jO [
        ("admin_server", jN 7001),
        ("managed_server", jN 7003),
        ("ais_server", jN 7075),
        ("http", jN 80),
        ("https", jN 443),
        ("notes", jS "Ports must be unique if running multiple environments on same server")]),
      ("memory", jO [
        ("minimum", jS "16GB"),
        ("recommended", jS "32GB"),
        ("heap_settings", jS "-Xms4096m -Xmx8192m")]),
      ("notes", jS "HTML Server provides web interface, AIS services, and Orchestrator runtime")])]),
  ("database", jO [
    ("sql_server", jO [
      ("versions", jA [
        jS "SQL Server 2016 SP3",
        jS "SQL Server 2019",
        jS "SQL Server 2022"]),
      ("collation", jS "SQL_Latin1_General_CP1_CI_AS"),
      ("memory", jO [
        ("minimum", jS "64GB"),
        ("recommended", jS "128GB"),
        ("notes", jS "Set max server memory to 80% of available RAM")]),
      ("storage", jO [
        ("data_files", jS "500GB minimum for production"),
        ("log_files", jS "100GB minimum"),
        ("tempdb", jS "50GB minimum"),
        ("notes", jS "Use separate drives for data, logs, and tempdb")]),
      ("configuration", jO [
        ("max_degree_of_parallelism", jN 4),
        ("cost_threshold_for_parallelism", jN 50),
        ("recovery_model", jS "FULL for production"),
        ("notes", jS "Optimize for OLTP workloads")]),
      ("notes", jS "Refer to Oracle Certifications for exact version compatibility")]),
    ("oracle_db", jO [
      ("versions", jA [
        jS "Oracle Database 19c",
        jS "Oracle Database 21c"]),
      ("character_set", jS "AL32UTF8"),
      ("memory", jO [
        ("sga_target", jS "32GB minimum"),
        ("pga_aggregate_target", jS "8GB minimum")]),
      ("tablespaces", jA [
        jS "JDE_DATA",
        jS "JDE_INDEX",
        jS "JDE_LOB"]),
      ("notes", jS "Oracle Database is recommended for large enterprise deployments")])])]

/-- `INSTALLATION_SEQUENCE` from `src/knowledge_base.py`. -/
def INSTALLATION_SEQUENCE : JVal := jO [
  ("production", jA [
    jO [
      ("step", jN 1),
      ("phase", jS "Pre-Installation"),
      ("action", jS "Complete Environment Assessment"),
      ("details", jA [
        jS "Verify all server hardware meets requirements",
        jS "Confirm network connectivity between all servers",
        jS "Validate database connectivity and permissions",
        jS "Review Oracle Certifications for version compatibility"]),
      ("duration", jS "1-2 hours"),
      ("critical", jB true)],
    jO [
      ("step", jN 2),
      ("phase", jS "Pre-Installation"),
      ("action", jS "Backup Existing Setup"),
      ("details", jA [
        jS "Backup Deployment Server directories: /System, /Systemcomp, /OneWorld Client Install",
        jS "Export all JDE database schemas",
        jS "Backup Server Manager configuration",
        jS "Document current environment settings",
        jS "Create system restore point"]),
      ("duration", jS "2-4 hours"),
      ("critical", jB true),
      ("rollback_point", jB true)],
    jO [
      ("step", jN 3),
      ("phase", jS "Prerequisites"),
      ("action", jS "Install Runtime Prerequisites"),
      ("details", jA [
        jS "Install Microsoft Visual C++ 2010/2012/2013 Runtime X86 Redistributables",
        jS "Install .NET Framework 4.8",
        jS "Configure Windows Firewall rules",
        jS "Set up service accounts"]),
      ("duration", jS "1 hour"),
      ("critical", jB true)],
    jO [
      ("step", jN 4),
      ("phase", jS "Core Installation"),
      ("action", jS "Install JDE Tools Release 9.2 via Server Manager"),
      ("details", jA [
        jS "Download Tools Release from Oracle Software Delivery Cloud",
        jS "Launch Server Manager installation wizard",
        jS "Select 'Install JD Edwards EnterpriseOne Tools'",
        jS "Configure installation paths",
        jS "Complete installation and verify"]),
      ("duration", jS "2-3 hours"),
      ("critical", jB true),
      ("server_manager_task", jB true)],
    jO [
      ("step", jN 5),
      ("phase", jS "Core Installation"),
      ("action", jS "Convert Local Database Encryption"),
      ("details", jA [
        jS "Navigate to Deployment Server installation directory",
        jS "Run ReconfigureDB.exe",
        jS "Follow prompts to convert encryption",
        jS "Verify database connectivity after conversion"]),
      ("duration", jS "30 minutes"),
      ("critical", jB true),
      ("command", jS "ReconfigureDB.exe")],
    jO [
      ("step", jN 6),
      ("phase", jS "Patching"),
      ("action", jS "Install Planner ESU (Bug 26501747)"),
      ("details", jA [
        jS "Download Bug 26501747 from My Oracle Support",
        jS "Run self-extracting executable",
        jS "Follow HTML special instructions document",
        jS "Verify installation via Server Manager"]),
      ("duration", jS "1-2 hours"),
      ("critical", jB true),
      ("mos_reference", jS "Bug 26501747")],
    jO [
      ("step", jN 7),
      ("phase", jS "Patching"),
      ("action", jS "Apply Current Tools Rollup ESU"),
      ("details", jA [
        jS "Check My Oracle Support for latest Tools Rollup",
        jS "Download applicable rollup for Tools 9.2.x",
        jS "Deploy via Server Manager ESU deployment",
        jS "Follow any special instructions"]),
      ("duration", jS "2-3 hours"),
      ("critical", jB true),
      ("mos_reference", jS "Check MOS for current Bug number")],
    jO [
      ("step", jN 8),
      ("phase", jS "Application Updates"),
      ("action", jS "Install Tools Application Enhancement Rollup ASU"),
      ("details", jA [
        jS "Download ASU from Oracle Software Delivery Cloud",
        jS "Uncompress ASU package on Deployment Server",
        jS "Use Server Manager to deploy ASU",
        jS "Navigate to P96470 (GH9612) for application deployment",
        jS "Deploy to all environments in sequence (DEV -> TEST -> PROD)"]),
      ("duration", jS "3-4 hours"),
      ("critical", jB true),
      ("menu_navigation", jS "GH9612 > P96470")],
    jO [
      ("step", jN 9),
      ("phase", jS "Post-Installation"),
      ("action", jS "Deploy Automated Special Instructions (ASI)"),
      ("details", jA [
        jS "Select package in Server Manager",
        jS "Deploy ASI components",
        jS "Run post-install UBEs (R98222UDO, etc.)",
        jS "Verify ASI deployment status"]),
      ("duration", jS "1-2 hours"),
      ("critical", jB true)],
    jO [
      ("step", jN 10),
      ("phase", jS "Verification"),
      ("action", jS "Complete Installation Verification"),
      ("details", jA [
        jS "Verify fixes via Oracle Product Features",
        jS "Test environment sign-on for all users",
        jS "Validate batch processing functionality",
        jS "Test web client access",
        jS "Verify AIS services (if applicable)",
        jS "Run functional smoke tests"]),
      ("duration", jS "2-4 hours"),
      ("critical", jB true)]]),
  ("test_py", jA [
    jO [
      ("step", jN 1),
      ("phase", jS "Pre-Installation"),
      ("action", jS "Validate Test Environment Infrastructure"),
      ("details", jA [
        jS "Confirm test server meets minimum requirements",
        jS "Verify network isolation from production (if required)",
        jS "Set up test database instance"]),
      ("duration", jS "1 hour"),
      ("critical", jB true)]]),
  ("development", jA [
    jO [
      ("step", jN 1),
      ("phase", jS "Pre-Installation"),
      ("action", jS "Set Up Development Infrastructure"),
      ("details", jA [
        jS "Configure development server",
        jS "Set up version control integration",
        jS "Configure Object Management Workbench (OMW)"]),
      ("duration", jS "2 hours"),
      ("critical", jB true)]]),
  ("standalone_demo", jA [
    jO [
      ("step", jN 1),
      ("phase", jS "Installation"),
      ("action", jS "Install Standalone Demo"),
      ("details", jA [
        jS "Download demo image from Oracle",
        jS "Configure VM settings",
        jS "Import and configure demo environment"]),
      ("duration", jS "4-6 hours"),
      ("critical", jB true),
      ("notes", jS "Standalone demo is for evaluation only - not for production use")]])]

/-! ## Knowledge store: `src/environment_config.py` -/

/-- The `"PD920_production"` entry of `ENVIRONMENT_CONFIG`, named so the
theorems can speak about the full stored tree. -/
def envPD920 : JVal := jO [
  ("path_code", jS "PD920"),
  ("environment_name", jS "Production"),
  ("description", jS "Production Environment - Live business operations"),
  ("release", jS "9.2 R24"),
  ("data_sources", jO [
    ("system", jO [
      ("name", jS "System - PD920"),
      ("database", jS "JDE_SYSTEM_PD"),
      ("type", jS "System Tables"),
      ("tables", jA [jS "F0092", jS "F0093", jS "F0094", jS "F98101"])]),
    ("business_data", jO [
      ("name", jS "Business Data - PD920"),
      ("database", jS "JDE_BUSDATA_PD"),
      ("type", jS "Business Data Tables"),
      ("tables", jA [jS "F0101", jS "F0411", jS "F4211", jS "F4311"])]),
    ("central_objects", jO [
      ("name", jS "Central Objects - PD920"),
      ("database", jS "JDE_CENTRAL_PD"),
      ("type", jS "Central Objects"),
      ("tables", jA [jS "F9860", jS "F9861", jS "F9862"])]),
    ("versions", jO [
      ("name", jS "Versions - PD920"),
      ("database", jS "JDE_VERSIONS_PD"),
      ("type", jS "Report Versions"),
      ("tables", jA [jS "F983051", jS "F98306"])]),
    ("control_tables", jO [
      ("name", jS "Control Tables - PD920"),
      ("database", jS "JDE_CONTROL_PD"),
      ("type", jS "Control Tables"),
      ("tables", jA [jS "F0004", jS "F0005", jS "F0006", jS "F0010"])])]),
  ("server_map", jO [
    ("enterprise_server", jO [
      ("name", jS "ENT_PD920"),
      ("host", jS "jde-ent-prod.company.com"),
      ("port_range", jS "6000-6100")]),
    ("html_server", jO [
      ("name", jS "HTML_PD920"),
      ("host", jS "jde-web-prod.company.com"),
      ("port", jN 7003),
      ("url", jS "https://jde.company.com/jde")])]),
  ("ocm_mappings", jO [
    ("description", jS "Object Configuration Manager mappings for production"),
    ("rules", jA [
      jS "All objects default to production data sources",
      jS "No development objects allowed in production OCM",
      jS "Custom objects must follow naming convention (55-59)"])]),
  ("best_practices", jA [
    jS "Implement strict change control procedures - all changes via OMW projects",
    jS "Regular backups before any changes (daily differential, weekly full)",
    jS "Use Server Manager for all deployments - never manual file copies",
    jS "Monitor performance metrics continuously via Server Manager",
    jS "Implement row-level security for sensitive data",
    jS "Enable audit logging for compliance",
    jS "Schedule batch jobs during off-peak hours",
    jS "Maintain disaster recovery procedures"]),
  ("security_level", jS "Highest"),
  ("change_control", jS "Required - All changes must be approved")]

/-- The `"PY920_test"` entry of `ENVIRONMENT_CONFIG`. -/
def envPY920 : JVal := jO [
  ("path_code", jS "PY920"),
  ("environment_name", jS "Prototype/Test"),
  ("description", jS "Test/QA Environment - UAT and integration testing"),
  ("release", jS "9.2 R24"),
  ("data_sources", jO [
    ("system", jO [
      ("name", jS "System - PY920"),
      ("database", jS "JDE_SYSTEM_PY"),
      ("type", jS "System Tables")]),
    ("business_data", jO [
      ("name", jS "Business Data - PY920"),
      ("database", jS "JDE_BUSDATA_PY"),
      ("type", jS "Business Data Tables")]),
    ("central_objects", jO [
      ("name", jS "Central Objects - PY920"),
      ("database", jS "JDE_CENTRAL_PY"),
      ("type", jS "Central Objects")]),
    ("versions", jO [
      ("name", jS "Versions - PY920"),
      ("database", jS "JDE_VERSIONS_PY"),
      ("type", jS "Report Versions")]),
    ("control_tables", jO [
      ("name", jS "Control Tables - PY920"),
      ("database", jS "JDE_CONTROL_PY"),
      ("type", jS "Control Tables")])]),
  ("best_practices", jA [
    jS "Mirror production configuration where possible",
    jS "Use for UAT and integration testing before production",
    jS "Refresh data from production periodically (monthly recommended)",
    jS "Document all test scenarios and results",
    jS "Use realistic data volumes for performance testing",
    jS "Test all customizations thoroughly before promotion"]),
  ("security_level", jS "Medium"),
  ("change_control", jS "Recommended")]

/-- The `"DV920_development"` entry of `ENVIRONMENT_CONFIG`. -/
def envDV920 : JVal := jO [
  ("path_code", jS "DV920"),
  ("environment_name", jS "Development"),
  ("description", jS "Development Environment - Object development and unit testing"),
  ("release", jS "9.2 R24"),
  ("data_sources", jO [
    ("system", jO [
      ("name", jS "System - DV920"),
      ("database", jS "JDE_SYSTEM_DV"),
      ("type", jS "System Tables")]),
    ("business_data", jO [
      ("name", jS "Business Data - DV920"),
      ("database", jS "JDE_BUSDATA_DV"),
      ("type", jS "Business Data Tables")]),
    ("central_objects", jO [
      ("name", jS "Central Objects - DV920"),
      ("database", jS "JDE_CENTRAL_DV"),
      ("type", jS "Central Objects")]),
    ("versions", jO [
      ("name", jS "Versions - DV920"),
      ("database", jS "JDE_VERSIONS_DV"),
      ("type", jS "Report Versions")]),
    ("control_tables", jO [
      ("name", jS "Control Tables - DV920"),
      ("database", jS "JDE_CONTROL_DV"),
      ("type", jS "Control Tables")])]),
  ("development_tools", jO [
    ("omw", jO [
      ("name", jS "Object Management Workbench"),
      ("program", jS "P98220"),
      ("purpose", jS "Manage development projects and object lifecycle")]),
    ("oda", jO [
      ("name", jS "Object Design Aid"),
      ("purpose", jS "Design and modify JDE objects")]),
    ("fda", jO [
      ("name", jS "Form Design Aid"),
      ("purpose", jS "Create and modify interactive applications")]),
    ("rda", jO [
      ("name", jS "Report Design Aid"),
      ("purpose", jS "Create and modify batch reports")])]),
  ("best_practices", jA [
    jS "Allow more flexibility for development activities",
    jS "Regular code promotions to test (weekly)",
    jS "Use Object Management Workbench (OMW) for all object changes",
    jS "Maintain development standards documentation",
    jS "Follow naming conventions for custom objects (55-59 prefix)",
    jS "Implement code review process before promotion",
    jS "Unit test all changes before moving to test environment"]),
  ("security_level", jS "Lower"),
  ("change_control", jS "Optional - Developer discretion")]

/-- `ENVIRONMENT_CONFIG` from `src/environment_config.py`. -/
def ENVIRONMENT_CONFIG : JVal := jO [
  ("PD920_production", envPD920),
  ("PY920_test", envPY920),
  ("DV920_development", envDV920)]

/-- `CENTRALIZED_CONFIGURATION` from `src/environment_config.py`. -/
def CENTRALIZED_CONFIGURATION : JVal := jO [
  ("overview", jO [
    ("description", jS "Release 24 introduces Centralized Configuration to simplify management of settings across servers from Server Manager"),
    ("version_introduced", jS "Release 24 (9.2.7+)"),
    ("benefits", jA [
      jS "Set up default configuration that servers can inherit",
      jS "Reduces manual configuration effort across environments",
      jS "Ensures consistent settings across all managed servers",
      jS "Easier maintenance and updates - change once, apply everywhere",
      jS "Simplified onboarding of new servers",
      jS "Audit trail for configuration changes"]),
    ("components", jA [
      jS "Server Manager Central Configuration",
      jS "Configuration Templates",
      jS "Inheritance Rules",
      jS "Override Management"])]),
  ("setup", jO [
    ("prerequisites", jA [
      jS "Server Manager 9.2.7 or higher",
      jS "Administrative access to Server Manager",
      jS "All managed servers registered in Server Manager"]),
    ("steps", jA [
      jO [("step", jN 1), ("action", jS "Access Server Manager"),
          ("details", jS "Log in to Server Manager with administrator credentials")],
      jO [("step", jN 2), ("action", jS "Navigate to Centralized Configuration"),
          ("details", jS "Select 'Centralized Configuration' from the Configuration menu")],
      jO [("step", jN 3), ("action", jS "Define Default Configuration Templates"),
          ("details", jS "Create templates for common configurations (Enterprise Server, HTML Server, etc.)")],
      jO [("step", jN 4), ("action", jS "Assign Templates to Server Groups"),
          ("details", jS "Group servers by type or environment and assign appropriate templates")],
      jO [("step", jN 5), ("action", jS "Configure Inheritance Rules"),
          ("details", jS "Define which settings can be overridden at server level")],
      jO [("step", jN 6), ("action", jS "Test Configuration Deployment"),
          ("details", jS "Deploy configuration to test servers first, then production")]])]),
  ("inheritance", jO [
    ("description", jS "Inheritance allows servers to receive default settings while permitting local overrides"),
    ("hierarchy", jA [
      jS "Global Defaults -> Server Type Defaults -> Environment Defaults -> Individual Server"]),
    ("override_behavior", jA [
      jS "Child settings override parent settings",
      jS "Locked settings cannot be overridden",
      jS "Audit log tracks all overrides"])]),
  ("troubleshooting", jO [
    ("common_issues", jA [
      jO [("issue", jS "Configuration not applying to server"),
          ("causes", jA [jS "Server not registered", jS "Template not assigned", jS "Inheritance blocked"]),
          ("resolution", jS "Verify server registration, check template assignment, review inheritance rules")],
      jO [("issue", jS "Unexpected configuration values"),
          ("causes", jA [jS "Override in effect", jS "Wrong template assigned", jS "Stale cache"]),
          ("resolution", jS "Check for local overrides, verify template assignment, refresh server configuration")]])])]

/-- `SERVER_MANAGER_CONFIG` from `src/environment_config.py`. -/
def SERVER_MANAGER_CONFIG : JVal := jO [
  ("deployment_server", jO [
    ("initial_setup", jO [
      ("description", jS "Configure Deployment Server for JDE E1 9.2 R24"),
      ("steps", jA [
        jO [("step", jN 1), ("action", jS "Install Server Manager"),
            ("details", jS "Run Server Manager installer on Windows Server")],
        jO [("step", jN 2), ("action", jS "Configure Database Connection"),
            ("details", jS "Set up ODBC connection to JDE system database")],
        jO [("step", jN 3), ("action", jS "Set Up Shared Directories"),
            ("details", jS "Configure network shares for package deployment")],
        jO [("step", jN 4), ("action", jS "Configure Deployment Locations"),
            ("details", jS "Define paths for package builds and deployment")],
        jO [("step", jN 5), ("action", jS "Register Managed Servers"),
            ("details", jS "Add Enterprise and HTML servers to Server Manager")]])]),
    ("package_deployment", jO [
      ("description", jS "Deploy packages to target environments"),
      ("steps", jA [
        jO [("step", jN 1), ("action", jS "Create Package Build"),
            ("details", jS "Use Package Build to create deployment package")],
        jO [("step", jN 2), ("action", jS "Select Target Environment"),
            ("details", jS "Choose destination environment (DEV/TEST/PROD)")],
        jO [("step", jN 3), ("action", jS "Deploy Package"),
            ("details", jS "Execute deployment and monitor progress")],
        jO [("step", jN 4), ("action", jS "Verify Deployment"),
            ("details", jS "Check deployment status and logs")]])])]),
  ("enterprise_server", jO [
    ("initial_setup", jO [
      ("description", jS "Configure Enterprise Server for JDE E1 9.2 R24"),
      ("steps", jA [
        jO [("step", jN 1), ("action", jS "Install Enterprise Server Components"),
            ("details", jS "Use Server Manager to install Enterprise Server")],
        jO [("step", jN 2), ("action", jS "Configure Host Code"),
            ("details", jS "Set up host code for server identification")],
        jO [("step", jN 3), ("action", jS "Configure Kernel Processes"),
            ("details", jS "Set up JDENET, JDEQUEUE, and JDEIPC kernels")],
        jO [("step", jN 4), ("action", jS "Configure Batch Processing"),
            ("details", jS "Set up batch queues and job scheduling")],
        jO [("step", jN 5), ("action", jS "Start Enterprise Server"),
            ("details", jS "Start all kernel processes and verify status")]])]),
    ("kernel_configuration", jO [
      ("JDENET", jO [
        ("description", jS "Network kernel for JDE communications"),
        ("settings", jO [
          ("max_connections", jN 100),
          ("timeout", jN 300),
          ("port_range", jS "6000-6100")])]),
      ("JDEQUEUE", jO [
        ("description", jS "Queue kernel for asynchronous processing"),
        ("settings", jO [
          ("max_workers", jN 10),
          ("queue_size", jN 1000)])]),
      ("JDEIPC", jO [
        ("description", jS "IPC kernel for inter-process communication"),
        ("settings", jO [
          ("shared_memory_size", jS "512MB")])])])]),
  ("html_server", jO [
    ("initial_setup", jO [
      ("description", jS "Configure HTML Server (Web Client) for JDE E1 9.2 R24"),
      ("steps", jA [
        jO [("step", jN 1), ("action", jS "Install WebLogic Server Prerequisites"),
            ("details", jS "Install JDK and configure JAVA_HOME")],
        jO [("step", jN 2), ("action", jS "Deploy HTML Server via Server Manager"),
            ("details", jS "Use Server Manager to deploy JAS instance")],
        jO [("step", jN 3), ("action", jS "Configure WebLogic Domain"),
            ("details", jS "Create JDE HTML domain with managed servers")],
        jO [("step", jN 4), ("action", jS "Configure Managed Servers"),
            ("details", jS "Set up managed server instances for each environment")],
        jO [("step", jN 5), ("action", jS "Set Up AIS Services"),
            ("details", jS "Configure Application Interface Services if required")],
        jO [("step", jN 6), ("action", jS "Configure SSL (Optional)"),
            ("details", jS "Set up SSL certificates for HTTPS access")],
        jO [("step", jN 7), ("action", jS "Start HTML Server"),
            ("details", jS "Start WebLogic admin and managed servers")]])]),
    ("ports", jO [
      ("admin_server", jO [
        ("default", jN 7001),
        ("description", jS "WebLogic Administration Server")]),
      ("managed_server", jO [
        ("default", jN 7003),
        ("description", jS "JDE HTML Managed Server")]),
      ("ais_server", jO [
        ("default", jN 7075),
        ("description", jS "Application Interface Services")])]),
    ("jvm_settings", jO [
      ("initial_heap", jS "-Xms4096m"),
      ("max_heap", jS "-Xmx8192m"),
      ("metaspace", jS "-XX:MetaspaceSize=512m"),
      ("gc_options", jS "-XX:+UseG1GC")])])]

/-- `ESU_ASU_REQUIREMENTS` from `src/environment_config.py`. -/
def ESU_ASU_REQUIREMENTS : JVal := jO [
  ("orchestrator", jO [
    ("description", jS "JDE Orchestrator for workflow automation"),
    ("required_components", jA [
      jO [("type", jS "ESU"), ("name", jS "Orchestrator Foundation"),
          ("mos_reference", jS "Check MOS for current Bug number"),
          ("notes", jS "Required for basic Orchestrator functionality")],
      jO [("type", jS "ASU"), ("name", jS "Orchestrator Studio"),
          ("version", jS "TL92500102+"),
          ("notes", jS "Design-time component for creating orchestrations")]]),
    ("prerequisites", jA [
      jS "AIS Server configured and running",
      jS "HTML Server with REST services enabled"])]),
  ("ux_one", jO [
    ("description", jS "UX One role-based user experience"),
    ("required_components", jA [
      jO [("type", jS "ASU"), ("name", jS "UX One Foundation"),
          ("notes", jS "Base components for UX One")],
      jO [("type", jS "Content"), ("name", jS "UX One Role Content"),
          ("notes", jS "Role-specific content packages")]])]),
  ("cafe_one", jO [
    ("description", jS "CafeOne landing pages and dashboards"),
    ("required_components", jA [
      jO [("type", jS "ASU"), ("name", jS "CafeOne Framework"),
          ("notes", jS "Landing page framework")]])]),
  ("e1_page", jO [
    ("description", jS "E1 Page Composer for custom pages"),
    ("required_components", jA [
      jO [("type", jS "Tools"), ("name", jS "E1 Page Composer Tools"),
          ("notes", jS "Design tools for creating custom pages")]])]),
  ("mobile", jO [
    ("description", jS "JDE Mobile Enterprise applications"),
    ("required_components", jA [
      jO [("type", jS "ESU"), ("name", jS "Mobile Foundation"),
          ("notes", jS "Required for mobile app connectivity")],
      jO [("type", jS "Content"), ("name", jS "Mobile Application Content"),
          ("notes", jS "Pre-built mobile applications")]]),
    ("prerequisites", jA [
      jS "AIS Server with mobile services enabled",
      jS "SSL certificate for secure mobile connections"])])]

/-! ## Knowledge store: `src/troubleshooting.py` -/

/-- First `html_server` issue of `TROUBLESHOOTING_GUIDE` (stored symptom
`"Cannot access web client"`), named so the theorems can point at it. -/
def issueCannotAccessWebClient : JVal := jO [
  ("symptom", jS "Cannot access web client"),
  ("error_messages", jA [
    jS "Connection refused",
    jS "404 Not Found",
    jS "503 Service Unavailable"]),
  ("causes", jA [
    jS "WebLogic server not running",
    jS "Port blocked by firewall",
    jS "SSL certificate issues",
    jS "JAS application not deployed"]),
  ("diagnostic_steps", jA [
    jS "Check WebLogic Admin Console status",
    jS "Verify managed server is running",
    jS "Test port connectivity: telnet server 7003",
    jS "Check firewall rules"]),
  ("resolution", jA [
    jS "Start WebLogic admin and managed servers",
    jS "Open required ports in firewall",
    jS "Renew or fix SSL certificates",
    jS "Redeploy JAS application"]),
  ("log_files", jA [
    jS "WebLogic Server Log: $DOMAIN_HOME/servers/*/logs/*.log",
    jS "JAS Log: $DOMAIN_HOME/servers/*/logs/jas*.log"])]

/-- Second `html_server` issue (stored symptom `"Slow web client performance"`). -/
def issueSlowWebClient : JVal := jO [
  ("symptom", jS "Slow web client performance"),
  ("causes", jA [
    jS "Insufficient JVM heap memory",
    jS "Network latency",
    jS "Database query performance",
    jS "Too many concurrent users"]),
  ("resolution", jA [
    jS "Increase JVM heap settings (-Xmx)",
    jS "Optimize network configuration",
    jS "Review and optimize slow queries",
    jS "Scale out with additional managed servers"])]

/-- Third `html_server` issue (stored symptom `"Session timeout issues"`). -/
def issueSessionTimeout : JVal := jO [
  ("symptom", jS "Session timeout issues"),
  ("causes", jA [
    jS "Incorrect timeout configuration",
    jS "Load balancer timeout mismatch"]),
  ("resolution", jA [
    jS "Adjust session timeout in jas.ini",
    jS "Align load balancer timeout settings",
    jS "Configure sticky sessions if using load balancer"])]

/-- The `common_issues` list of the `deployment_server` component. -/
def deploymentServerIssues : List JVal := [
  jO [
    ("symptom", jS "Package build fails"),
    ("error_messages", jA [
      jS "Package build terminated with errors",
      jS "Object check-out conflict",
      jS "Insufficient disk space"]),
    ("causes", jA [
      jS "Insufficient disk space on deployment server",
      jS "Object check-out conflicts in OMW",
      jS "Database connectivity issues",
      jS "Missing specifications"]),
    ("diagnostic_steps", jA [
      jS "Check disk space: dir /s on package build directory",
      jS "Review Package Build log in Server Manager",
      jS "Check OMW for conflicting check-outs",
      jS "Verify database connectivity"]),
    ("resolution", jA [
      jS "Free up disk space or add storage",
      jS "Resolve OMW check-out conflicts",
      jS "Verify database connection settings",
      jS "Rebuild specifications if needed"]),
    ("log_files", jA [
      jS "Server Manager Package Build Log",
      jS "JDE.LOG on Deployment Server"])],
  jO [
    ("symptom", jS "Server Manager won't start"),
    ("error_messages", jA [
      jS "Cannot connect to database",
      jS "Port already in use",
      jS "Service failed to start"]),
    ("causes", jA [
      jS "Database connection failure",
      jS "Port conflicts with other applications",
      jS "Service account credential issues",
      jS "Corrupted configuration"]),
    ("diagnostic_steps", jA [
      jS "Check Windows Event Log for service errors",
      jS "Verify database connectivity via ODBC",
      jS "Check port availability: netstat -an | find \"7001\"",
      jS "Validate service account credentials"]),
    ("resolution", jA [
      jS "Verify and fix database connection",
      jS "Change ports or stop conflicting service",
      jS "Reset service account password",
      jS "Reinstall Server Manager if configuration corrupted"]),
    ("log_files", jA [
      jS "Windows Event Log > Application",
      jS "Server Manager logs in install directory"])],
  jO [
    ("symptom", jS "ESU/ASU deployment fails"),
    ("causes", jA [
      jS "Missing prerequisites",
      jS "Incorrect deployment sequence",
      jS "Database errors"]),
    ("resolution", jA [
      jS "Verify all prerequisites are met",
      jS "Follow deployment sequence in special instructions",
      jS "Check database for errors",
      jS "Review ESU/ASU deployment log"])]]

/-- The `common_issues` list of the `html_server` component. -/
def htmlServerIssues : List JVal :=
  [issueCannotAccessWebClient, issueSlowWebClient, issueSessionTimeout]

/-- The `common_issues` list of the `enterprise_server` component. -/
def enterpriseServerIssues : List JVal := [
  jO [
    ("symptom", jS "Batch jobs not running"),
    ("causes", jA [
      jS "Batch queue not started",
      jS "Job scheduler issue",
      jS "Database connectivity"]),
    ("diagnostic_steps", jA [
      jS "Check batch queue status in Server Manager",
      jS "Review job scheduler configuration",
      jS "Verify Enterprise Server kernels are running"]),
    ("resolution", jA [
      jS "Start batch queue via Server Manager",
      jS "Restart job scheduler",
      jS "Verify database connectivity",
      jS "Check UBE logs for specific errors"]),
    ("log_files", jA [
      jS "JDE.LOG on Enterprise Server",
      jS "UBE output files in PrintQueue directory"])],
  jO [
    ("symptom", jS "JDENET kernel crashes"),
    ("causes", jA [
      jS "Memory exhaustion",
      jS "Too many connections",
      jS "Network issues"]),
    ("resolution", jA [
      jS "Increase kernel memory allocation",
      jS "Optimize connection pooling",
      jS "Review network configuration"])]]

/-- The `common_issues` list of the `database` component. -/
def databaseIssues : List JVal := [
  jO [
    ("symptom", jS "Database connection timeouts"),
    ("causes", jA [
      jS "Network issues",
      jS "Database overloaded",
      jS "Connection pool exhausted"]),
    ("resolution", jA [
      jS "Check network connectivity",
      jS "Review database performance",
      jS "Increase connection pool size"])],
  jO [
    ("symptom", jS "Table conversion errors"),
    ("causes", jA [
      jS "Missing indexes",
      jS "Data integrity issues",
      jS "Insufficient space"]),
    ("resolution", jA [
      jS "Rebuild missing indexes",
      jS "Clean up data integrity issues",
      jS "Add database storage"])]]

/-- `TROUBLESHOOTING_GUIDE` from `src/troubleshooting.py`. -/
def TROUBLESHOOTING_GUIDE : JVal := jO [
  ("deployment_server", jO [("common_issues", jA deploymentServerIssues)]),
  ("html_server", jO [("common_issues", jA htmlServerIssues)]),
  ("enterprise_server", jO [("common_issues", jA enterpriseServerIssues)]),
  ("database", jO [("common_issues", jA databaseIssues)])]

/-- `LOG_ANALYSIS` from `src/troubleshooting.py`. -/
def LOG_ANALYSIS : JVal := jO [
  ("jde_log", jO [
    ("location", jO [
      ("windows", jS "C:\\JDEdwards\\E920\\system\\bin32\\jde.log"),
      ("linux", jS "/u01/jdedwards/e920/system/bin32/jde.log")]),
    ("description", jS "Main JDE application log"),
    ("key_patterns", jA [
      jO [("pattern", jS "Error"), ("meaning", jS "General error condition"),
          ("action", jS "Review error details and context")],
      jO [("pattern", jS "BSFN ERROR"), ("meaning", jS "Business function error"),
          ("action", jS "Check BSFN name and error code")],
      jO [("pattern", jS "SQL Error"), ("meaning", jS "Database query error"),
          ("action", jS "Review SQL statement and database logs")]])]),
  ("jas_log", jO [
    ("location", jS "$DOMAIN_HOME/servers/*/logs/jas*.log"),
    ("description", jS "JDE Application Server log for web client"),
    ("key_patterns", jA [
      jO [("pattern", jS "Exception"), ("meaning", jS "Java exception occurred"),
          ("action", jS "Review full stack trace")],
      jO [("pattern", jS "OutOfMemoryError"), ("meaning", jS "JVM heap exhausted"),
          ("action", jS "Increase heap size or investigate memory leak")]])]),
  ("weblogic_log", jO [
    ("location", jS "$DOMAIN_HOME/servers/*/logs/*server.log"),
    ("description", jS "WebLogic server log"),
    ("key_patterns", jA [
      jO [("pattern", jS "BEA-"), ("meaning", jS "WebLogic-specific message"),
          ("action", jS "Look up BEA error code")],
      jO [("pattern", jS "Stuck Thread"), ("meaning", jS "Thread blocked for extended period"),
          ("action", jS "Review thread dump, check for deadlocks")]])]),
  ("server_manager_log", jO [
    ("location", jS "Server Manager installation directory/logs"),
    ("description", jS "Server Manager operation logs"),
    ("key_patterns", jA [
      jO [("pattern", jS "Deployment"), ("meaning", jS "Package deployment activity"),
          ("action", jS "Review deployment status")]])]),
  ("package_build_log", jO [
    ("location", jS "Server Manager > Package Build History"),
    ("description", jS "Package build detailed log"),
    ("key_patterns", jA [
      jO [("pattern", jS "BLDPKG ERROR"), ("meaning", jS "Package build error"),
          ("action", jS "Review error details, check object status")]])])]

/-- `CONFIGURATION_UTILITIES` from `src/troubleshooting.py`. -/
def CONFIGURATION_UTILITIES : JVal := jO [
  ("overview", jO [
    ("program", jS "P01RS01"),
    ("name", jS "JD Edwards EnterpriseOne Configuration Utilities"),
    ("description", jS "Central point for configuration programs and tools to set up and configure business data, task views, roles, security, and program versions"),
    ("menu", jS "GH9612"),
    ("capabilities", jA [
      jS "Import and export large amounts of data during initial setup",
      jS "Configure business processes across modules",
      jS "Set up valid configurations and implementations",
      jS "Manage roles and security settings",
      jS "Configure program versions"])]),
  ("business_data", jO [
    ("description", jS "Configure master data and business rules"),
    ("programs", jA [
      jO [("program", jS "P0004A"), ("name", jS "User Defined Codes"),
          ("purpose", jS "Maintain user defined code tables")],
      jO [("program", jS "P0006A"), ("name", jS "Business Unit Master"),
          ("purpose", jS "Configure business unit hierarchy")],
      jO [("program", jS "P0010"), ("name", jS "Company Setup"),
          ("purpose", jS "Configure company-level settings")]])]),
  ("task_views", jO [
    ("description", jS "Configure task views and navigation"),
    ("programs", jA [
      jO [("program", jS "P9000"), ("name", jS "Task View Configuration"),
          ("purpose", jS "Set up task views for different user roles")]])]),
  ("roles", jO [
    ("description", jS "Configure user roles and permissions"),
    ("programs", jA [
      jO [("program", jS "P00950"), ("name", jS "Role Master"),
          ("purpose", jS "Define and maintain user roles")],
      jO [("program", jS "P00951"), ("name", jS "Role Relationship"),
          ("purpose", jS "Configure role hierarchies and relationships")]])]),
  ("security", jO [
    ("description", jS "Configure security settings"),
    ("programs", jA [
      jO [("program", jS "P00950"), ("name", jS "User Security"),
          ("purpose", jS "Configure user-level security")],
      jO [("program", jS "P00105"), ("name", jS "Application Security"),
          ("purpose", jS "Configure application-level security")],
      jO [("program", jS "P00950W"), ("name", jS "Row Security"),
          ("purpose", jS "Configure row-level data security")]])]),
  ("program_versions", jO [
    ("description", jS "Configure program versions"),
    ("programs", jA [
      jO [("program", jS "P98305"), ("name", jS "Version Prompting Setup"),
          ("purpose", jS "Configure version selection behavior")],
      jO [("program", jS "P983051"), ("name", jS "Batch Version Configuration"),
          ("purpose", jS "Configure batch job versions")]])])]

/-! ## Operation registry: `list_tools` in `src/server.py`

The declared input schemas, as data: per argument its JSON type, optional
enumerated legal values and optional declared default; per tool the list
of required argument names. -/

/-- One property of a tool's `inputSchema`. -/
structure ArgSpec where
  name : String
  type : String
  enum : Option (List String)
  description : String
  default : Option JVal
deriving Repr

/-- One entry of the tool registry returned by `list_tools`. -/
structure ToolSpec where
  name : String
  description : String
  properties : List ArgSpec
  required : List String
deriving Repr

/-- The full tool registry from `list_tools` in `src/server.py`. -/
def list_tools : List ToolSpec := [
  { name := "research_installation_prerequisites",
    description := "Research and return the mandatory installation prerequisites for JDE E1 9.2 R24 components",
    properties := [
      { name := "component", type := "string",
        enum := some ["deployment_server", "enterprise_server", "html_server", "database", "all"],
        description := "The JDE component to get prerequisites for", default := none },
      { name := "platform", type := "string",
        enum := some ["windows", "linux", "aix"],
        description := "Target platform", default := some (jS "windows") }],
    required := ["component"] },
  { name := "get_installation_sequence",
    description := "Returns the mandatory installation sequence for JDE E1 9.2 R24 components",
    properties := [
      { name := "environment_type", type := "string",
        enum := some ["production", "test_py", "development", "standalone_demo"],
        description := "Type of environment being installed", default := none }],
    required := ["environment_type"] },
  { name := "get_environment_configuration",
    description := "Provides configuration guidance for specific JDE environment types (PD920, PY920, DV920)",
    properties := [
      { name := "environment", type := "string",
        enum := some ["PD920_production", "PY920_test", "DV920_development"],
        description := "The target environment", default := none },
      { name := "component", type := "string",
        enum := some ["path_codes", "data_sources", "ocm_mappings", "server_map", "all"],
        description := "Configuration component to retrieve", default := some (jS "all") }],
    required := ["environment"] },
  { name := "research_server_manager_config",
    description := "Research Server Manager configuration options for JDE E1 9.2 R24",
    properties := [
      { name := "config_area", type := "string",
        enum := some ["deployment_server", "enterprise_server", "html_server", "batch_server", "logic_server"],
        description := "Server Manager configuration area", default := none },
      { name := "operation", type := "string",
        enum := some ["initial_setup", "add_environment", "package_deployment", "esus_asus", "kernel_configuration"],
        description := "Type of operation", default := some (jS "initial_setup") }],
    required := ["config_area"] },
  { name := "get_centralized_configuration_guide",
    description := "Returns guidance on Release 24's new Centralized Configuration feature",
    properties := [
      { name := "scope", type := "string",
        enum := some ["overview", "setup", "inheritance", "troubleshooting"],
        description := "Aspect of Centralized Configuration", default := none }],
    required := ["scope"] },
  { name := "diagnose_configuration_issue",
    description := "Diagnose common JDE E1 9.2 R24 configuration issues",
    properties := [
      { name := "symptom", type := "string", enum := none,
        description := "Description of the issue or symptom", default := none },
      { name := "component", type := "string",
        enum := some ["deployment_server", "enterprise_server", "html_server", "database", "client"],
        description := "Affected component", default := none },
      { name := "environment", type := "string", enum := none,
        description := "Environment where issue occurs (optional)", default := none }],
    required := ["symptom", "component"] },
  { name := "lookup_esu_asu_requirements",
    description := "Research required ESUs and ASUs for specific JDE E1 9.2 R24 features",
    properties := [
      { name := "feature_area", type := "string",
        enum := some ["orchestrator", "ux_one", "cafe_one", "e1_page", "mobile", "general"],
        description := "Feature area requiring ESU/ASU information", default := none },
      { name := "tools_release", type := "string", enum := none,
        description := "Tools release version", default := some (jS "9.2.7") }],
    required := ["feature_area"] },
  { name := "get_weblogic_configuration",
    description := "Returns WebLogic Server configuration for JDE HTML/AIS servers",
    properties := [
      { name := "server_type", type := "string",
        enum := some ["html_server", "ais_server", "admin_server"],
        description := "Type of WebLogic server", default := none },
      { name := "config_area", type := "string",
        enum := some ["initial_setup", "managed_servers", "clustering", "ssl", "ports", "jvm_settings"],
        description := "Configuration area", default := some (jS "initial_setup") }],
    required := ["server_type"] },
  { name := "get_configuration_utilities_guide",
    description := "Returns guidance on using JDE Configuration Utilities (P01RS01)",
    properties := [
      { name := "utility_area", type := "string",
        enum := some ["business_data", "task_views", "roles", "security", "program_versions", "overview"],
        description := "Configuration Utilities area", default := none }],
    required := ["utility_area"] },
  { name := "search_jde_documentation",
    description := "Search and summarize relevant Oracle JDE E1 9.2 R24 documentation",
    properties := [
      { name := "topic", type := "string", enum := none,
        description := "Topic to search for", default := none },
      { name := "doc_type", type := "string",
        enum := some ["installation_guide", "admin_guide", "security_guide", "upgrade_guide", "release_notes", "all"],
        description := "Type of documentation", default := some (jS "all") }],
    required := ["topic"] },
  { name := "get_log_analysis_guidance",
    description := "Returns guidance on analyzing JDE log files",
    properties := [
      { name := "log_type", type := "string",
        enum := some ["jde_log", "jas_log", "weblogic_log", "server_manager_log", "package_build_log", "all"],
        description := "Type of log file to analyze", default := none },
      { name := "issue_type", type := "string", enum := none,
        description := "Specific issue type (optional)", default := none }],
    required := ["log_type"] },
  { name := "configure_multi_environment",
    description := "Guidance for multi-environment setup (PROD/TEST/DEV)",
    properties := [
      { name := "deployment_model", type := "string",
        enum := some ["single_server", "distributed", "cloud_hybrid"],
        description := "Deployment model", default := none },
      { name := "environments", type := "array", enum := none,
        description := "List of environments", default := none }],
    required := ["deployment_model", "environments"] }]

/-- The registered operation names, in registry order. -/
def toolNames : List String := list_tools.map (fun t => t.name)

/-- Schema lookup helper: the `ArgSpec` of argument `a` of tool `t`. -/
def argSpecOf (t : String) (a : String) : Option ArgSpec :=
  match list_tools.find? (fun s => s.name == t) with
  | some s => s.properties.find? (fun p => p.name == a)
  | none => none

/-- Schema lookup helper: the required-argument list of tool `t`. -/
def requiredOf (t : String) : List String :=
  match list_tools.find? (fun s => s.name == t) with
  | some s => s.required
  | none => []

/-! ## The stdio dispatcher: `call_tool` in `src/server.py` -/

/-- Python iteration `for i in v`, for the shapes the code can meet. -/
def pyIterList : JVal → Except String (List JVal)
  | .arr xs => .ok xs
  | .obj kvs => .ok (kvs.map (fun p => jS p.1))
  | .str s => .ok (s.toList.map (fun c => jS (String.mk [c])))
  | v => .error ("TypeError: " ++ pyTypeName v ++ " object is not iterable")

/-- Key coercion `json.dumps` applies to a non-string dict key (the
`{log_type: ...}` display in `get_log_analysis_guidance` can build such a
dict); unhashable keys have already raised inside `dict.get`. -/
def jsonKeyOf : JVal → Except String String
  | .str s => .ok s
  | .num n => .ok (toString n)
  | .bool b => .ok (if b then "true" else "false")
  | .null => .ok "null"
  | v => .error ("TypeError: unhashable type: " ++ pyTypeName v)

/-- Match condition of the diagnosis comprehension in `call_tool`:
`any(w in symptom.lower() for w in i["symptom"].lower().split())`. -/
def diagnoseCond (symptom : JVal) (i : JVal) : Except String Bool := do
  let s ← pyGetItem i (jS "symptom")
  let sl ← pyLower s
  listAnyM
    (fun w => do
      let symLow ← pyLower symptom
      pure (pyInStr w symLow))
    (pySplitWs sl)

/-- The `notes` list appended by `research_installation_prerequisites`. -/
def prereqNotes : JVal :=
  jA [jS "Verify against Oracle Certifications", jS "Check MOS for latest patches"]

/-- The constant `general_steps` list of the diagnosis envelope. -/
def generalSteps : JVal :=
  jA [jS "Check Server Manager logs", jS "Verify database connectivity", jS "Review JDE.LOG"]

/-- The result dict literal of the `diagnose_configuration_issue` branch:
`matching_issues` is the match list when non-empty and the no-match text
otherwise, `general_steps` is the constant list. -/
def diagnoseEnvelope (symptom component environment : JVal)
    (matching : List JVal) : JVal :=
  jO [
    ("symptom", symptom),
    ("component", component),
    ("environment", environment),
    ("matching_issues",
      if matching.isEmpty then jS "No exact match - use general troubleshooting"
      else jA matching),
    ("general_steps", generalSteps)]

/-- The `research_installation_prerequisites` branch of `call_tool`. -/
def research_installation_prerequisites (arguments : List (String × JVal)) :
    Except String JVal := do
  let component := argGet arguments "component" (jS "all")
  let platform := argGet arguments "platform" (jS "windows")
  if component == jS "all" then do
    let prereqs ← List.foldlM
      (fun acc comp => do
        let prereq ← pyGetS INSTALLATION_PREREQUISITES comp (jO [])
        let mem ← pyIn platform prereq
        if mem then do
          let v ← pyGetItem prereq platform
          pure (dictSet acc comp v)
        else if comp == "database" then
          pure (dictSet acc comp prereq)
        else
          pure acc)
      []
      ["deployment_server", "enterprise_server", "html_server", "database"]
    pure (jO (dictSet [("platform", platform), ("prerequisites", jO prereqs)]
      "notes" prereqNotes))
  else do
    let prereq_data ← pyGet INSTALLATION_PREREQUISITES component (jO [])
    let prereq ← pyGet prereq_data platform prereq_data
    pure (jO (dictSet
      [("component", component), ("platform", platform), ("prerequisites", prereq)]
      "notes" prereqNotes))

/-- The `get_installation_sequence` branch of `call_tool`. -/
def get_installation_sequence (arguments : List (String × JVal)) :
    Except String JVal := do
  let env_type := argGet arguments "environment_type" (jS "production")
  let dflt ← pyGetItem INSTALLATION_SEQUENCE (jS "production")
  let sequence ← pyGet INSTALLATION_SEQUENCE env_type dflt
  pure (jO [
    ("environment_type", env_type),
    ("installation_sequence", sequence),
    ("notes", jA [jS "Follow steps in order", jS "Do not skip backups",
      jS "Document all changes"])])

/-- The `get_environment_configuration` branch of `call_tool`. -/
def get_environment_configuration (arguments : List (String × JVal)) :
    Except String JVal := do
  let environment := argGet0 arguments "environment"
  let component := argGet arguments "component" (jS "all")
  let env_config ← pyGet ENVIRONMENT_CONFIG environment (jO [])
  if component == jS "all" then
    pure (jO [("environment", environment), ("configuration", env_config)])
  else if component == jS "data_sources" then do
    let ds ← pyGetS env_config "data_sources" (jO [])
    pure (jO [("environment", environment), ("data_sources", ds)])
  else do
    let d ← pyGet env_config component env_config
    pure (jO [("environment", environment), ("component", component), ("data", d)])

/-- The `research_server_manager_config` branch of `call_tool`. -/
def research_server_manager_config (arguments : List (String × JVal)) :
    Except String JVal := do
  let config_area := argGet0 arguments "config_area"
  let operation := argGet arguments "operation" (jS "initial_setup")
  let server_config ← pyGet SERVER_MANAGER_CONFIG config_area (jO [])
  let config_data ←
    if operation == jS "kernel_configuration" && config_area == jS "enterprise_server" then
      pyGetS server_config "kernel_configuration" (jO [])
    else do
      let d ← pyGetS server_config "initial_setup" (jO [])
      pyGet server_config operation d
  pure (jO [("config_area", config_area), ("operation", operation),
    ("configuration", config_data)])

/-- The `get_centralized_configuration_guide` branch of `call_tool`. -/
def get_centralized_configuration_guide (arguments : List (String × JVal)) :
    Except String JVal := do
  let scope := argGet arguments "scope" (jS "overview")
  let dflt ← pyGetItem CENTRALIZED_CONFIGURATION (jS "overview")
  let details ← pyGet CENTRALIZED_CONFIGURATION scope dflt
  pure (jO [("feature", jS "Centralized Configuration (Release 24)"),
    ("scope", scope), ("details", details)])

/-- The `diagnose_configuration_issue` branch of `call_tool`. -/
def diagnose_configuration_issue (arguments : List (String × JVal)) :
    Except String JVal := do
  let symptom := argGet arguments "symptom" (jS "")
  let component := argGet0 arguments "component"
  let environment := argGet arguments "environment" (jS "Not specified")
  let tg ← pyGet TROUBLESHOOTING_GUIDE component (jO [])
  let ci ← pyGetS tg "common_issues" (jA [])
  let component_issues ← pyIterList ci
  let matching ← listFilterM (diagnoseCond symptom) component_issues
  pure (diagnoseEnvelope symptom component environment matching)

/-- The `lookup_esu_asu_requirements` branch of `call_tool`. -/
def lookup_esu_asu_requirements (arguments : List (String × JVal)) :
    Except String JVal := do
  let feature_area := argGet arguments "feature_area" (jS "general")
  let tools_release := argGet arguments "tools_release" (jS "9.2.7")
  let feature_info ← pyGet ESU_ASU_REQUIREMENTS feature_area (jO [])
  pure (jO [
    ("feature_area", feature_area),
    ("tools_release", tools_release),
    ("requirements", feature_info),
    ("note", jS "Check My Oracle Support for current patch numbers")])

/-- The `get_weblogic_configuration` branch of `call_tool`. -/
def get_weblogic_configuration (arguments : List (String × JVal)) :
    Except String JVal := do
  let server_type := argGet0 arguments "server_type"
  let config_area := argGet arguments "config_area" (jS "initial_setup")
  let html_config ← pyGetS SERVER_MANAGER_CONFIG "html_server" (jO [])
  let ports ← pyGetS html_config "ports" (jO [])
  let jvm_settings ← pyGetS html_config "jvm_settings" (jO [])
  let initial_setup ← pyGetS html_config "initial_setup" (jO [])
  let setup_steps ← pyGetS initial_setup "steps" (jA [])
  pure (jO [
    ("server_type", server_type),
    ("config_area", config_area),
    ("ports", ports),
    ("jvm_settings", jvm_settings),
    ("setup_steps", setup_steps)])

/-- The `get_configuration_utilities_guide` branch of `call_tool`. -/
def get_configuration_utilities_guide (arguments : List (String × JVal)) :
    Except String JVal := do
  let utility_area := argGet arguments "utility_area" (jS "overview")
  let dflt ← pyGetItem CONFIGURATION_UTILITIES (jS "overview")
  let utility_info ← pyGet CONFIGURATION_UTILITIES utility_area dflt
  pure (jO [
    ("program", jS "P01RS01"),
    ("utility_area", utility_area),
    ("details", utility_info),
    ("menu", jS "GH9612")])

/-- The `search_jde_documentation` branch of `call_tool`. -/
def search_jde_documentation (arguments : List (String × JVal)) :
    Except String JVal := do
  let topic := argGet arguments "topic" (jS "")
  pure (jO [
    ("topic", topic),
    ("resources", jA [
      jO [("title", jS "JDE Documentation Library"),
          ("url", jS "https://docs.oracle.com/en/applications/jd-edwards/")],
      jO [("title", jS "My Oracle Support"),
          ("url", jS "https://support.oracle.com")]])])

/-- The `get_log_analysis_guidance` branch of `call_tool`. -/
def get_log_analysis_guidance (arguments : List (String × JVal)) :
    Except String JVal := do
  let log_type := argGet arguments "log_type" (jS "all")
  let log_info ←
    if log_type == jS "all" then
      pure LOG_ANALYSIS
    else do
      let v ← pyGet LOG_ANALYSIS log_type (jO [])
      let k ← jsonKeyOf log_type
      pure (jO [(k, v)])
  pure (jO [("log_type", log_type), ("analysis", log_info)])

/-- The `configure_multi_environment` branch of `call_tool`. -/
def configure_multi_environment (arguments : List (String × JVal)) :
    Except String JVal := do
  let deployment_model := argGet0 arguments "deployment_model"
  let environments := argGet arguments "environments" (jA [])
  let model_guidance := jO [
    ("single_server", jO [("description", jS "All environments on single server"),
      ("port_offsets", jN 10)]),
    ("distributed", jO [("description", jS "Separate servers per environment"),
      ("recommended", jB true)]),
    ("cloud_hybrid", jO [("description", jS "Mix of on-prem and cloud"),
      ("cloud_options", jA [jS "OCI", jS "AWS", jS "Azure"])])]
  let guidance ← pyGet model_guidance deployment_model (jO [])
  pure (jO [
    ("deployment_model", deployment_model),
    ("environments", environments),
    ("guidance", guidance)])

/-- Body of the `try:` block of `call_tool` in `src/server.py`: the
`elif` chain over the operation name, each branch factored out above
under its operation's name.  An `Except.error` is an exception escaping a
resolver branch; the final `else` is the `UnknownOperation` payload. -/
def callToolBody (name : String) (arguments : List (String × JVal)) :
    Except String JVal :=
  if name == "research_installation_prerequisites" then
    research_installation_prerequisites arguments
  else if name == "get_installation_sequence" then
    get_installation_sequence arguments
  else if name == "get_environment_configuration" then
    get_environment_configuration arguments
  else if name == "research_server_manager_config" then
    research_server_manager_config arguments
  else if name == "get_centralized_configuration_guide" then
    get_centralized_configuration_guide arguments
  else if name == "diagnose_configuration_issue" then
    diagnose_configuration_issue arguments
  else if name == "lookup_esu_asu_requirements" then
    lookup_esu_asu_requirements arguments
  else if name == "get_weblogic_configuration" then
    get_weblogic_configuration arguments
  else if name == "get_configuration_utilities_guide" then
    get_configuration_utilities_guide arguments
  else if name == "search_jde_documentation" then
    search_jde_documentation arguments
  else if name == "get_log_analysis_guidance" then
    get_log_analysis_guidance arguments
  else if name == "configure_multi_environment" then
    configure_multi_environment arguments
  else
    pure (jO [("error", jS ("Unknown tool: " ++ name))])

/-- A `TextContent` item.  The `text` field carries the JSON value whose
`json.dumps` serialization the Python code puts in the item; `json.dumps`
is injective on these values, so content equality is `JVal` equality. -/
structure TextContent where
  type : String
  text : JVal
deriving Repr

/-- `call_tool` from `src/server.py`: the `try/except` wrapper around the
dispatch body.  A raised exception is converted to a single
`{"error": str(e)}` item; every outcome is one `TextContent`. -/
def call_tool (name : String) (arguments : List (String × JVal)) :
    List TextContent :=
  match callToolBody name arguments with
  | .ok result => [⟨"text", result⟩]
  | .error e => [⟨"text", jO [("error", jS e)]⟩]

/-! ## Prompts: `list_prompts` and `get_prompt` in `src/server.py` -/

/-- A declared prompt argument. -/
structure PromptArgument where
  name : String
  required : Bool
deriving Repr, DecidableEq

/-- A registry entry from `list_prompts`. -/
structure PromptSpec where
  name : String
  description : String
  arguments : List PromptArgument
deriving Repr, DecidableEq

/-- The prompt registry from `list_prompts` in `src/server.py`. -/
def list_prompts : List PromptSpec := [
  { name := "new-environment-setup", description := "New environment setup workflow",
    arguments := [⟨"environment_name", true⟩, ⟨"environment_type", true⟩,
      ⟨"database_platform", true⟩] },
  { name := "troubleshoot-deployment", description := "Deployment troubleshooting",
    arguments := [⟨"package_name", true⟩, ⟨"target_environment", true⟩,
      ⟨"error_description", true⟩] },
  { name := "upgrade-planning", description := "Tools Release upgrade planning",
    arguments := [⟨"current_tools_release", true⟩, ⟨"target_tools_release", true⟩] },
  { name := "security-configuration", description := "Security configuration guidance",
    arguments := [⟨"security_level", true⟩, ⟨"environment", true⟩] }]

/-- The registered prompt names. -/
def promptNames : List String := list_prompts.map (fun p => p.name)

/-- A rendered prompt message (role plus rendered text). -/
structure PromptMessage where
  role : String
  text : String
deriving Repr, DecidableEq

/-- Result shape of `get_prompt`. -/
structure GetPromptResult where
  description : String
  messages : List PromptMessage
deriving Repr, DecidableEq

/-- F-string interpolation `{args.get(k)}`: `str()` of the lookup, which
renders an absent argument as the placeholder text `"None"`. -/
def fmtArg (args : List (String × JVal)) (k : String) : String :=
  pyToStr (argGet0 args k)

/-- `get_prompt` from `src/server.py`.  `arguments` is optional and
`args = arguments or {}`; missing values render as `"None"` (and the one
defaulted description slot as `"NEW_ENV"`) instead of failing. -/
def get_prompt (name : String) (arguments : Option (List (String × JVal))) :
    GetPromptResult :=
  let args := arguments.getD []
  if name == "new-environment-setup" then
    { description := "Setup guide for " ++ pyToStr (argGet args "environment_name" (jS "NEW_ENV")),
      messages := [⟨"user",
        "Set up JDE E1 9.2 R24 environment: " ++ fmtArg args "environment_name" ++
        " (" ++ fmtArg args "environment_type" ++ ") with " ++
        fmtArg args "database_platform" ++
        ". Provide prerequisites, installation steps, and verification."⟩] }
  else if name == "troubleshoot-deployment" then
    { description := "Troubleshoot " ++ fmtArg args "package_name",
      messages := [⟨"user",
        "Troubleshoot deployment of " ++ fmtArg args "package_name" ++
        " to " ++ fmtArg args "target_environment" ++
        ". Error: " ++ fmtArg args "error_description"⟩] }
  else if name == "upgrade-planning" then
    { description := "Upgrade from " ++ fmtArg args "current_tools_release" ++
        " to " ++ fmtArg args "target_tools_release",
      messages := [⟨"user",
        "Plan upgrade from Tools " ++ fmtArg args "current_tools_release" ++
        " to " ++ fmtArg args "target_tools_release" ++
        ". Include ESUs/ASUs, sequence, and rollback plan."⟩] }
  else if name == "security-configuration" then
    { description := "Security for " ++ fmtArg args "environment",
      messages := [⟨"user",
        "Configure " ++ fmtArg args "security_level" ++ " security for " ++
        fmtArg args "environment" ++
        ". Include authentication, authorization, and audit settings."⟩] }
  else
    { description := "Unknown", messages := [] }

/-! ## HTTP adapter: `src/http_server.py`

The embedding models the deployed configuration in which the three
knowledge imports succeed, so the module tables equal the ones above and
`IMPORT_STATUS` records three successes and no errors. -/

/-- `TOOLS` table from `src/http_server.py`. -/
def TOOLS : JVal := jA [
  jO [("name", jS "research_installation_prerequisites"), ("description", jS "Get prerequisites for JDE components")],
  jO [("name", jS "get_installation_sequence"), ("description", jS "Get installation sequence for environments")],
  jO [("name", jS "get_environment_configuration"), ("description", jS "Get environment config (PD920, PY920, DV920)")],
  jO [("name", jS "research_server_manager_config"), ("description", jS "Get Server Manager configuration")],
  jO [("name", jS "get_centralized_configuration_guide"), ("description", jS "Get Release 24 Centralized Configuration guide")],
  jO [("name", jS "diagnose_configuration_issue"), ("description", jS "Diagnose JDE configuration issues")],
  jO [("name", jS "lookup_esu_asu_requirements"), ("description", jS "Get ESU/ASU requirements")],
  jO [("name", jS "get_weblogic_configuration"), ("description", jS "Get WebLogic configuration")],
  jO [("name", jS "get_configuration_utilities_guide"), ("description", jS "Get P01RS01 Configuration Utilities guide")],
  jO [("name", jS "search_jde_documentation"), ("description", jS "Search JDE documentation")],
  jO [("name", jS "get_log_analysis_guidance"), ("description", jS "Get log analysis guidance")],
  jO [("name", jS "configure_multi_environment"), ("description", jS "Multi-environment setup guidance")]]

/-- `RESOURCES` table from `src/http_server.py`. -/
def RESOURCES : JVal := jA [
  jO [("uri", jS "jde://config/installation-checklist"), ("name", jS "Installation Checklist")],
  jO [("uri", jS "jde://config/environment-templates/production"), ("name", jS "Production Template (PD920)")],
  jO [("uri", jS "jde://config/environment-templates/test"), ("name", jS "Test Template (PY920)")],
  jO [("uri", jS "jde://config/environment-templates/development"), ("name", jS "Development Template (DV920)")],
  jO [("uri", jS "jde://reference/port-assignments"), ("name", jS "Port Assignments")],
  jO [("uri", jS "jde://reference/tools-release-matrix"), ("name", jS "Tools Release Matrix")],
  jO [("uri", jS "jde://reference/error-codes"), ("name", jS "Error Codes Reference")]]

/-- `PROMPTS` table from `src/http_server.py`. -/
def PROMPTS : JVal := jA [
  jO [("name", jS "new-environment-setup"), ("description", jS "New environment setup workflow")],
  jO [("name", jS "troubleshoot-deployment"), ("description", jS "Deployment troubleshooting")],
  jO [("name", jS "upgrade-planning"), ("description", jS "Tools Release upgrade planning")],
  jO [("name", jS "security-configuration"), ("description", jS "Security configuration guidance")]]

/-- `IMPORT_STATUS` after the successful module loads being modeled. -/
def IMPORT_STATUS : JVal := jO [
  ("knowledge_base", jB true),
  ("environment_config", jB true),
  ("troubleshooting", jB true),
  ("errors", jA [])]

/-- `execute_tool` from `src/http_server.py`.  `name` and `arguments`
come out of the decoded request body, so both are dynamic values; an
`Except.error` is an exception escaping into `do_POST`'s handler. -/
def execute_tool (name : JVal) (arguments : JVal) : Except String JVal :=
  if name == jS "research_installation_prerequisites" then do
    let component ← pyGetS arguments "component" (jS "all")
    let platform ← pyGetS arguments "platform" (jS "windows")
    if component == jS "all" then
      pure (jO [("platform", platform), ("prerequisites", INSTALLATION_PREREQUISITES)])
    else do
      let prereq ← pyGet INSTALLATION_PREREQUISITES component (jO [])
      let pr ← pyGet prereq platform prereq
      pure (jO [("component", component), ("platform", platform), ("prerequisites", pr)])
  else if name == jS "get_installation_sequence" then do
    let env_type ← pyGetS arguments "environment_type" (jS "production")
    let seq ← pyGet INSTALLATION_SEQUENCE env_type (jA [])
    pure (jO [("environment_type", env_type), ("sequence", seq)])
  else if name == jS "get_environment_configuration" then do
    let environment ← pyGetS arguments "environment" (jS "PD920_production")
    let configuration ← pyGet ENVIRONMENT_CONFIG environment (jO [])
    pure (jO [("environment", environment), ("configuration", configuration)])
  else if name == jS "research_server_manager_config" then do
    let config_area ← pyGetS arguments "config_area" (jS "deployment_server")
    let configuration ← pyGet SERVER_MANAGER_CONFIG config_area (jO [])
    pure (jO [("config_area", config_area), ("configuration", configuration)])
  else if name == jS "get_centralized_configuration_guide" then do
    let scope ← pyGetS arguments "scope" (jS "overview")
    let guide ← pyGet CENTRALIZED_CONFIGURATION scope (jO [])
    pure (jO [("scope", scope), ("guide", guide)])
  else if name == jS "diagnose_configuration_issue" then do
    let component ← pyGetS arguments "component" (jS "")
    let symptom ← pyGetS arguments "symptom" (jS "")
    let tg ← pyGet TROUBLESHOOTING_GUIDE component (jO [])
    let issues ← pyGetS tg "common_issues" (jA [])
    pure (jO [("component", component), ("symptom", symptom), ("related_issues", issues)])
  else if name == jS "lookup_esu_asu_requirements" then do
    let feature ← pyGetS arguments "feature_area" (jS "general")
    let requirements ← pyGet ESU_ASU_REQUIREMENTS feature (jO [])
    pure (jO [("feature_area", feature), ("requirements", requirements)])
  else if name == jS "get_weblogic_configuration" then do
    let weblogic ← pyGetS SERVER_MANAGER_CONFIG "html_server" (jO [])
    pure (jO [("weblogic", weblogic)])
  else if name == jS "get_configuration_utilities_guide" then do
    let area ← pyGetS arguments "utility_area" (jS "overview")
    let guide ← pyGet CONFIGURATION_UTILITIES area (jO [])
    pure (jO [("utility_area", area), ("guide", guide)])
  else if name == jS "get_log_analysis_guidance" then do
    let log_type ← pyGetS arguments "log_type" (jS "all")
    if log_type == jS "all" then
      pure (jO [("log_analysis", LOG_ANALYSIS)])
    else do
      let analysis ← pyGet LOG_ANALYSIS log_type (jO [])
      pure (jO [("log_type", log_type), ("analysis", analysis)])
  else if name == jS "search_jde_documentation" then do
    let topic ← pyGetS arguments "topic" (jS "")
    pure (jO [
      ("topic", topic),
      ("resources", jA [
        jO [("name", jS "Oracle JDE Documentation"),
            ("url", jS "https://docs.oracle.com/en/applications/jd-edwards/")],
        jO [("name", jS "My Oracle Support"),
            ("url", jS "https://support.oracle.com")]])])
  else if name == jS "configure_multi_environment" then do
    let model ← pyGetS arguments "deployment_model" (jS "distributed")
    let envs ← pyGetS arguments "environments" (jA [])
    let guidance ← pyGet
      (jO [
        ("single_server", jS "All environments on one server - use port offsets"),
        ("distributed", jS "Recommended - separate servers per environment"),
        ("cloud_hybrid", jS "Mix of on-prem and cloud deployment")])
      model (jS "")
    pure (jO [("deployment_model", model), ("environments", envs), ("guidance", guidance)])
  else
    pure (jO [("error", jS ("Unknown tool: " ++ pyToStr name))])

/-- `JDEHandler._check_auth`: `apiToken` is the process-wide `API_TOKEN`
(`""` when the environment variable is unset), `authHeader` the value of
the `Authorization` header (`""` when absent). -/
def check_auth (apiToken : String) (authHeader : String) : Bool :=
  if apiToken == "" then true
  else if charsStartWith "Bearer ".toList authHeader.toList then
    String.mk (authHeader.toList.drop 7) == apiToken
  else false

/-- An HTTP response: status code plus JSON body. -/
structure HttpResponse where
  status : Nat
  body : JVal
deriving Repr

/-- Body of `_send_unauthorized`. -/
def unauthorizedBody : JVal := jO [("error", jS "Unauthorized. Bearer token required.")]

/-- Process state read by the `/debug` endpoint. -/
structure ProcState where
  python_path : List String
  working_directory : String

/-- The `environment_config_keys` value of `/debug`:
`list(ENVIRONMENT_CONFIG.keys()) if ENVIRONMENT_CONFIG else []`. -/
def envConfigKeys : JVal :=
  match ENVIRONMENT_CONFIG with
  | .obj kvs => if kvs.isEmpty then jA [] else jA (kvs.map (fun p => jS p.1))
  | _ => jA []

/-- `JDEHandler.do_GET` from `src/http_server.py`. -/
def do_GET (apiToken : String) (authHeader : String) (path : String)
    (ps : ProcState) : HttpResponse :=
  if path == "/health" then
    ⟨200, jO [("status", jS "healthy"), ("service", jS "jde-e1-config-mcp")]⟩
  else if !check_auth apiToken authHeader then
    ⟨401, unauthorizedBody⟩
  else if path == "/" || path == "" then
    ⟨200, jO [
      ("name", jS "JDE E1 9.2 R24 Configuration Research MCP"),
      ("version", jS "1.0.0"),
      ("status", jS "running"),
      ("tools_count", jN (jLen TOOLS)),
      ("resources_count", jN (jLen RESOURCES)),
      ("prompts_count", jN (jLen PROMPTS))]⟩
  else if path == "/tools" then
    ⟨200, jO [("tools", TOOLS)]⟩
  else if path == "/resources" then
    ⟨200, jO [("resources", RESOURCES)]⟩
  else if path == "/prompts" then
    ⟨200, jO [("prompts", PROMPTS)]⟩
  else if path == "/debug" then
    ⟨200, jO [
      ("import_status", IMPORT_STATUS),
      ("data_counts", jO [
        ("INSTALLATION_PREREQUISITES", jN (jLen INSTALLATION_PREREQUISITES)),
        ("INSTALLATION_SEQUENCE", jN (jLen INSTALLATION_SEQUENCE)),
        ("ENVIRONMENT_CONFIG", jN (jLen ENVIRONMENT_CONFIG)),
        ("CENTRALIZED_CONFIGURATION", jN (jLen CENTRALIZED_CONFIGURATION)),
        ("SERVER_MANAGER_CONFIG", jN (jLen SERVER_MANAGER_CONFIG)),
        ("ESU_ASU_REQUIREMENTS", jN (jLen ESU_ASU_REQUIREMENTS)),
        ("TROUBLESHOOTING_GUIDE", jN (jLen TROUBLESHOOTING_GUIDE)),
        ("LOG_ANALYSIS", jN (jLen LOG_ANALYSIS)),
        ("CONFIGURATION_UTILITIES", jN (jLen CONFIGURATION_UTILITIES))]),
      ("environment_config_keys", envConfigKeys),
      ("python_path", jA (ps.python_path.map jS)),
      ("working_directory", jS ps.working_directory)]⟩
  else
    ⟨404, jO [("error", jS "Not found")]⟩

/-- Body of the `try:` block of `do_POST` on `/tools/call`: `json.loads`
on the request body (its outcome is the `body` argument; `Except.error`
is a parse failure carrying the decode-error message) followed by
`execute_tool` on the decoded fields. -/
def toolsCallOutcome (body : Except String JVal) : Except String JVal := do
  let data ← body
  let name ← pyGetS data "name" (jS "")
  let args ← pyGetS data "arguments" (jO [])
  execute_tool name args

/-- `JDEHandler.do_POST` from `src/http_server.py`: auth gate, then the
`try/except` whose handler answers status 500 for any raised exception
(including a request body `json.loads` rejects). -/
def do_POST (apiToken : String) (authHeader : String) (path : String)
    (body : Except String JVal) : HttpResponse :=
  if !check_auth apiToken authHeader then
    ⟨401, unauthorizedBody⟩
  else if path == "/tools/call" then
    match toolsCallOutcome body with
    | .ok result => ⟨200, jO [("result", result)]⟩
    | .error e => ⟨500, jO [("error", jS e)]⟩
  else
    ⟨404, jO [("error", jS "Not found")]⟩

/-- `JDEHandler.do_OPTIONS`: the CORS preflight answer, status 200 with
no JSON body. -/
def do_OPTIONS : HttpResponse := ⟨200, .null⟩

/-! ## Spec-side definitions used by the theorems -/

/-- A dispatch outcome that is a success payload with no `"error"` key. -/
def isCleanSuccess : Except String JVal → Bool
  | .ok (.obj kvs) => !(kvs.any (fun p => p.1 == "error"))
  | _ => false

/-- Tool `name` dispatched with the empty argument bag yields a success
payload carrying no `"error"` field. -/
def emptyCallSucceeds (name : String) : Bool :=
  isCleanSuccess (callToolBody name [])

/-- Declared default of argument `a` of tool `t` in the registry. -/
def declaredDefault (t a : String) : Option JVal :=
  match argSpecOf t a with
  | some s => s.default
  | none => none

/-- Declared enumeration of argument `a` of tool `t` in the registry. -/
def declaredEnum (t a : String) : Option (List String) :=
  match argSpecOf t a with
  | some s => s.enum
  | none => none

/-- Stored symptom text of a troubleshooting issue. -/
def storedSymptom (i : JVal) : String :=
  match i with
  | .obj kvs =>
    match List.lookup "symptom" kvs with
    | some (.str s) => s
    | _ => ""
  | _ => ""

/-- The matching rule as the claims state it: an issue matches iff some
whitespace-delimited token of its stored symptom occurs as a substring of
the lowercased input symptom (the stored token is lowercased too, so the
comparison is case-insensitive). -/
def tokenOverlapMatch (input : String) (i : JVal) : Bool :=
  (pySplitWs (strLower (storedSymptom i))).any
    (fun tok => pyInStr tok (strLower input))

/-- The components with stored troubleshooting issues, in store order. -/
def troubleshootingComponents : List String :=
  ["deployment_server", "html_server", "enterprise_server", "database"]

/-- The stored `common_issues` list of a component, in declared order. -/
def commonIssuesOf (comp : String) : List JVal :=
  if comp == "deployment_server" then deploymentServerIssues
  else if comp == "html_server" then htmlServerIssues
  else if comp == "enterprise_server" then enterpriseServerIssues
  else if comp == "database" then databaseIssues
  else []

/-- The paths `do_GET` recognizes. -/
def getRoutes : List String :=
  ["/health", "/", "", "/tools", "/resources", "/prompts", "/debug"]

/-! ## Shared lemmas -/

/-- Python `str()` of a string value is the string itself. -/
theorem pyToStr_str (s : String) : pyToStr (jS s) = s := rfl

/-- Structural equality on two string values is string equality. -/
theorem jvalBeq_str (a b : String) : (JVal.str a == JVal.str b) = (a == b) := rfl

/-- Bind on a success computes the continuation. -/
theorem except_bind_ok {α β ε : Type} (a : α) (f : α → Except ε β) :
    (Except.ok a >>= f) = f a := rfl

/-- Map on a success maps the payload. -/
theorem except_map_ok {α β ε : Type} (f : α → β) (a : α) :
    (f <$> (Except.ok a : Except ε α)) = Except.ok (f a) := rfl

/-- Deriving the twelve name inequalities from non-membership in the
registry. -/
theorem not_registered_iff (n : String) :
    n ∉ toolNames ↔
      n ≠ "research_installation_prerequisites" ∧
      n ≠ "get_installation_sequence" ∧
      n ≠ "get_environment_configuration" ∧
      n ≠ "research_server_manager_config" ∧
      n ≠ "get_centralized_configuration_guide" ∧
      n ≠ "diagnose_configuration_issue" ∧
      n ≠ "lookup_esu_asu_requirements" ∧
      n ≠ "get_weblogic_configuration" ∧
      n ≠ "get_configuration_utilities_guide" ∧
      n ≠ "search_jde_documentation" ∧
      n ≠ "get_log_analysis_guidance" ∧
      n ≠ "configure_multi_environment" := by
  simp [toolNames, list_tools]

/-- An unregistered operation name falls through the `elif` chain of the
stdio dispatcher to the `Unknown tool` payload, whatever the arguments. -/
theorem callToolBody_unknown (n : String) (hn : n ∉ toolNames)
    (args : List (String × JVal)) :
    callToolBody n args = .ok (jO [("error", jS ("Unknown tool: " ++ n))]) := by
  obtain ⟨h1, h2, h3, h4, h5, h6, h7, h8, h9, h10, h11, h12⟩ :=
    (not_registered_iff n).mp hn
  simp only [callToolBody, beq_iff_eq, h1, h2, h3, h4, h5, h6, h7, h8, h9, h10,
    h11, h12, if_false]
  rfl

/-- An unregistered operation name falls through the chain of the HTTP
`execute_tool` to the `Unknown tool` payload, whatever the arguments. -/
theorem execute_tool_unknown (n : String) (hn : n ∉ toolNames) (body : JVal) :
    execute_tool (jS n) body = .ok (jO [("error", jS ("Unknown tool: " ++ n))]) := by
  obtain ⟨h1, h2, h3, h4, h5, h6, h7, h8, h9, h10, h11, h12⟩ :=
    (not_registered_iff n).mp hn
  simp only [execute_tool, jS, jvalBeq_str, beq_iff_eq, h1, h2, h3, h4, h5, h6, h7,
    h8, h9, h10, h11, h12, if_false]
  rfl

/-- A monadic `any` whose condition never raises computes `List.any`. -/
theorem listAnyM_pure {α : Type} (f : α → Bool) (l : List α) :
    listAnyM (fun x => .ok (f x)) l = .ok (l.any f) := by
  induction l with
  | nil => rfl
  | cons a as ih =>
    have hstep : listAnyM (fun x => .ok (f x)) (a :: as)
        = if f a then .ok true else listAnyM (fun x => .ok (f x)) as := rfl
    rw [hstep, List.any_cons]
    by_cases h : f a = true
    · simp [h]
    · simp only [Bool.not_eq_true] at h
      simp [h, ih]

/-- A monadic comprehension whose condition agrees with a pure Boolean
function on every element computes `List.filter`. -/
theorem listFilterM_congr (p : JVal → Except String Bool) (f : JVal → Bool)
    (l : List JVal) (h : ∀ i ∈ l, p i = .ok (f i)) :
    listFilterM p l = .ok (l.filter f) := by
  induction l with
  | nil => rfl
  | cons a as ih =>
    have ha := h a (List.mem_cons_self a as)
    have has : ∀ i ∈ as, p i = .ok (f i) := fun i hi => h i (List.mem_cons_of_mem a hi)
    have hstep : listFilterM p (a :: as) =
        (do
          let b ← p a
          let rest ← listFilterM p as
          pure (if b then a :: rest else rest)) := rfl
    rw [hstep, ha, ih has, List.filter_cons]
    rfl

/-- `List.lookup` across an append tries the left list first. -/
theorem lookup_append_assoc (k' : String) (xs ys : List (String × JVal)) :
    List.lookup k' (xs ++ ys) =
      match List.lookup k' xs with
      | some v => some v
      | none => List.lookup k' ys := by
  induction xs with
  | nil => rfl
  | cons a as ih =>
    obtain ⟨k, v⟩ := a
    by_cases h : (k' == k) = true
    · simp [List.lookup, h]
    · simp only [Bool.not_eq_true] at h
      simp [List.lookup, h, ih]

/-- Padding the argument dict with `(k, "None")` for an absent key `k`
leaves every rendered argument slot unchanged: the absent slot already
rendered as the placeholder `"None"`. -/
theorem fmtArg_pad (args : List (String × JVal)) (k k' : String)
    (hk : List.lookup k args = none) :
    fmtArg (args ++ [(k, jS "None")]) k' = fmtArg args k' := by
  unfold fmtArg argGet0
  rw [lookup_append_assoc]
  by_cases hkk : k' = k
  · subst hkk
    rw [hk]
    have hone : List.lookup k' [(k', jS "None")] = some (jS "None") := by
      simp [List.lookup]
    simp only [hone, Option.getD_some, Option.getD_none]
    rfl
  · have hlast : List.lookup k' [(k, jS "None")] = none := by
      have : (k' == k) = false := by simp [hkk]
      simp [List.lookup, this]
    rw [hlast]
    cases h2 : List.lookup k' args <;> simp [h2]

/-- Evaluation of the diagnosis condition on an issue whose stored
symptom is the string `s`. -/
theorem diagnoseCond_eval (input s : String) (i : JVal)
    (h : pyGetItem i (jS "symptom") = .ok (jS s)) :
    diagnoseCond (jS input) i =
      .ok ((pySplitWs (strLower s)).any (fun w => pyInStr w (strLower input))) := by
  unfold diagnoseCond
  rw [h]
  exact listAnyM_pure (fun w => pyInStr w (strLower input)) (pySplitWs (strLower s))

/-- An issue whose `"symptom"` entry is the string `s` stores symptom `s`. -/
theorem storedSymptom_of_getItem (s : String) (i : JVal)
    (h : pyGetItem i (jS "symptom") = .ok (jS s)) :
    storedSymptom i = s := by
  cases i with
  | obj kvs =>
    have hred : pyGetItem (JVal.obj kvs) (jS "symptom") =
        (match List.lookup "symptom" kvs with
         | some v => Except.ok v
         | none => Except.error ("KeyError: " ++ "symptom")) := rfl
    have hred2 : storedSymptom (JVal.obj kvs) =
        (match List.lookup "symptom" kvs with
         | some (JVal.str t) => t
         | _ => "") := rfl
    rw [hred] at h
    rw [hred2]
    split at h
    · rename_i v hl
      rw [hl]
      injection h with hv
      rw [hv]
      rfl
    · exact Except.noConfusion h
  | str s' => exact Except.noConfusion h
  | num n => exact Except.noConfusion h
  | bool b => exact Except.noConfusion h
  | null => exact Except.noConfusion h
  | arr xs => exact Except.noConfusion h

/-- The diagnosis condition agrees with the claim-side matching rule on
any issue that stores a string symptom. -/
theorem diagnoseCond_spec (input : String) (i : JVal) (s : String)
    (h : pyGetItem i (jS "symptom") = .ok (jS s)) :
    diagnoseCond (jS input) i = .ok (tokenOverlapMatch input i) := by
  rw [diagnoseCond_eval input s i h]
  unfold tokenOverlapMatch
  rw [storedSymptom_of_getItem s i h]

/-- Every stored issue of a listed component has a string `"symptom"`. -/
theorem storedIssuesHaveSymptom :
    ∀ comp ∈ troubleshootingComponents, ∀ i ∈ commonIssuesOf comp,
      pyGetItem i (jS "symptom") = .ok (jS (storedSymptom i)) := by
  intro comp hcomp
  fin_cases hcomp <;> (intro i hi; fin_cases hi <;> rfl)

/-- The troubleshooting store holds exactly `commonIssuesOf comp` for
each listed component. -/
theorem troubleshootingStore_eval :
    ∀ comp ∈ troubleshootingComponents,
      pyGet TROUBLESHOOTING_GUIDE (jS comp) (jO []) =
        .ok (jO [("common_issues", jA (commonIssuesOf comp))]) := by
  intro comp hcomp
  fin_cases hcomp <;> rfl

/-- Full evaluation of the `diagnose_configuration_issue` resolver: the
monadic comprehension returns exactly the token-overlap matches of the
stored issue list, in store order. -/
theorem diagnose_eval (input comp : String) (issues : List JVal)
    (hget : pyGet TROUBLESHOOTING_GUIDE (jS comp) (jO []) =
      .ok (jO [("common_issues", jA issues)]))
    (hsym : ∀ i ∈ issues, pyGetItem i (jS "symptom") = .ok (jS (storedSymptom i))) :
    diagnose_configuration_issue
      [("symptom", jS input), ("component", jS comp)] =
    .ok (diagnoseEnvelope (jS input) (jS comp) (jS "Not specified")
      (issues.filter (tokenOverlapMatch input))) := by
  unfold diagnose_configuration_issue
  have hfilter : listFilterM (diagnoseCond (jS input)) issues =
      .ok (issues.filter (tokenOverlapMatch input)) :=
    listFilterM_congr _ _ issues
      (fun i hi => diagnoseCond_spec input i (storedSymptom i) (hsym i hi))
  show (do
    let tg ← pyGet TROUBLESHOOTING_GUIDE (jS comp) (jO [])
    let ci ← pyGetS tg "common_issues" (jA [])
    let component_issues ← pyIterList ci
    let matching ← listFilterM (diagnoseCond (jS input)) component_issues
    pure (diagnoseEnvelope (jS input) (jS comp) (jS "Not specified") matching) :
      Except String JVal) = _
  rw [hget]
  show (do
    let component_issues ← pyIterList (jA issues)
    let matching ← listFilterM (diagnoseCond (jS input)) component_issues
    pure (diagnoseEnvelope (jS input) (jS comp) (jS "Not specified") matching) :
      Except String JVal) = _
  rw [show pyIterList (jA issues) = .ok issues from rfl]
  show (do
    let matching ← listFilterM (diagnoseCond (jS input)) issues
    pure (diagnoseEnvelope (jS input) (jS comp) (jS "Not specified") matching) :
      Except String JVal) = _
  rw [hfilter]
  rfl

/-! ### Out-of-enumeration behavior, one lemma per enumerated argument

For every tool argument that declares an `enum`, supplying a string value
outside the enumeration is not rejected: the call returns a success
envelope with no `error` field.  The lemmas below establish this for each
of the sixteen enumerated arguments of the registry; arguments whose
resolver never branches on the value hold for every string. -/

/-- Out-of-enum `component` on `research_installation_prerequisites`: the
store lookup misses and the call returns the fallback payload. -/
theorem rip_component_payload (v : String)
    (hv : v ∉ ["deployment_server", "enterprise_server", "html_server", "database", "all"]) :
    callToolBody "research_installation_prerequisites" [("component", jS v)] =
      .ok (jO [("component", jS v), ("platform", jS "windows"),
        ("prerequisites", jO []), ("notes", prereqNotes)]) := by
  simp only [List.mem_cons, List.not_mem_nil, or_false, not_or] at hv
  obtain ⟨h1, h2, h3, h4, h5⟩ := hv
  have b1 : (v == "deployment_server") = false := beq_eq_false_iff_ne.mpr h1
  have b2 : (v == "enterprise_server") = false := beq_eq_false_iff_ne.mpr h2
  have b3 : (v == "html_server") = false := beq_eq_false_iff_ne.mpr h3
  have b4 : (v == "database") = false := beq_eq_false_iff_ne.mpr h4
  have b5 : (v == "all") = false := beq_eq_false_iff_ne.mpr h5
  show research_installation_prerequisites [("component", jS v)] = _
  unfold research_installation_prerequisites
  simp [argGet, List.lookup, jS, jvalBeq_str, b1, b2, b3, b4, b5,
    pyGet, INSTALLATION_PREREQUISITES, jO, dictSet, except_bind_ok, except_map_ok]

theorem rip_component_clean (v : String)
    (hv : v ∉ ["deployment_server", "enterprise_server", "html_server", "database", "all"]) :
    isCleanSuccess (callToolBody "research_installation_prerequisites"
      [("component", jS v)]) = true := by
  rw [rip_component_payload v hv]
  rfl

theorem rip_platform_clean (v : String)
    (hv : v ∉ ["windows", "linux", "aix"]) :
    isCleanSuccess (callToolBody "research_installation_prerequisites"
      [("platform", jS v)]) = true := by
  simp only [List.mem_cons, List.not_mem_nil, or_false, not_or] at hv
  obtain ⟨h1, h2, h3⟩ := hv
  have b1 : ("windows" == v) = false := beq_eq_false_iff_ne.mpr (Ne.symm h1)
  have b2 : ("linux" == v) = false := beq_eq_false_iff_ne.mpr (Ne.symm h2)
  by_cases hs : v = "sql_server"
  · subst hs
    rfl
  · by_cases ho : v = "oracle_db"
    · subst ho
      rfl
    · have b4 : ("sql_server" == v) = false := beq_eq_false_iff_ne.mpr (Ne.symm hs)
      have b5 : ("oracle_db" == v) = false := beq_eq_false_iff_ne.mpr (Ne.symm ho)
      show isCleanSuccess (research_installation_prerequisites
        [("platform", jS v)]) = true
      unfold research_installation_prerequisites
      simp [argGet, List.lookup, List.foldlM, jS, jvalBeq_str, pyIn, pyGetS, pyGet,
        pyGetItem, INSTALLATION_PREREQUISITES, jO, dictSet, isCleanSuccess,
        b1, b2, b4, b5, except_bind_ok, except_map_ok]
      rfl

theorem gis_env_type_clean (v : String) :
    isCleanSuccess (callToolBody "get_installation_sequence"
      [("environment_type", jS v)]) = true := rfl

theorem gec_environment_clean (v : String) :
    isCleanSuccess (callToolBody "get_environment_configuration"
      [("environment", jS v)]) = true := rfl

theorem gec_component_clean (v : String)
    (hv : v ∉ ["path_codes", "data_sources", "ocm_mappings", "server_map", "all"]) :
    isCleanSuccess (callToolBody "get_environment_configuration"
      [("component", jS v)]) = true := by
  simp only [List.mem_cons, List.not_mem_nil, or_false, not_or] at hv
  obtain ⟨h1, h2, h3, h4, h5⟩ := hv
  have ball : (v == "all") = false := beq_eq_false_iff_ne.mpr h5
  have bds : (v == "data_sources") = false := beq_eq_false_iff_ne.mpr h2
  show isCleanSuccess (get_environment_configuration [("component", jS v)]) = true
  unfold get_environment_configuration
  simp [argGet, argGet0, List.lookup, jS, jvalBeq_str, pyGet, pyGetS,
    ENVIRONMENT_CONFIG, jO, isCleanSuccess, ball, bds,
    except_bind_ok, except_map_ok]

theorem rsmc_config_area_clean (v : String)
    (hv : v ∉ ["deployment_server", "enterprise_server", "html_server",
      "batch_server", "logic_server"]) :
    isCleanSuccess (callToolBody "research_server_manager_config"
      [("config_area", jS v)]) = true := by
  simp only [List.mem_cons, List.not_mem_nil, or_false, not_or] at hv
  obtain ⟨h1, h2, h3, h4, h5⟩ := hv
  have b1 : (v == "deployment_server") = false := beq_eq_false_iff_ne.mpr h1
  have b2 : (v == "enterprise_server") = false := beq_eq_false_iff_ne.mpr h2
  have b3 : (v == "html_server") = false := beq_eq_false_iff_ne.mpr h3
  show isCleanSuccess (research_server_manager_config [("config_area", jS v)]) = true
  unfold research_server_manager_config
  simp [argGet, argGet0, List.lookup, jS, jvalBeq_str, pyGet, pyGetS,
    SERVER_MANAGER_CONFIG, jO, isCleanSuccess, b1, b2, b3,
    except_bind_ok, except_map_ok]

theorem rsmc_operation_clean (v : String)
    (hv : v ∉ ["initial_setup", "add_environment", "package_deployment",
      "esus_asus", "kernel_configuration"]) :
    isCleanSuccess (callToolBody "research_server_manager_config"
      [("operation", jS v)]) = true := by
  simp only [List.mem_cons, List.not_mem_nil, or_false, not_or] at hv
  obtain ⟨h1, h2, h3, h4, h5⟩ := hv
  have bk : (v == "kernel_configuration") = false := beq_eq_false_iff_ne.mpr h5
  show isCleanSuccess (research_server_manager_config [("operation", jS v)]) = true
  unfold research_server_manager_config
  simp [argGet, argGet0, List.lookup, jS, jvalBeq_str, pyGet, pyGetS,
    SERVER_MANAGER_CONFIG, jO, isCleanSuccess, bk,
    except_bind_ok, except_map_ok]

theorem gccg_scope_clean (v : String) :
    isCleanSuccess (callToolBody "get_centralized_configuration_guide"
      [("scope", jS v)]) = true := rfl

theorem dci_component_clean (v : String)
    (hv : v ∉ ["deployment_server", "enterprise_server", "html_server",
      "database", "client"]) :
    isCleanSuccess (callToolBody "diagnose_configuration_issue"
      [("component", jS v)]) = true := by
  simp only [List.mem_cons, List.not_mem_nil, or_false, not_or] at hv
  obtain ⟨h1, h2, h3, h4, h5⟩ := hv
  have b1 : (v == "deployment_server") = false := beq_eq_false_iff_ne.mpr h1
  have b2 : (v == "html_server") = false := beq_eq_false_iff_ne.mpr h3
  have b3 : (v == "enterprise_server") = false := beq_eq_false_iff_ne.mpr h2
  have b4 : (v == "database") = false := beq_eq_false_iff_ne.mpr h4
  show isCleanSuccess (diagnose_configuration_issue [("component", jS v)]) = true
  unfold diagnose_configuration_issue
  simp [argGet, argGet0, List.lookup, jS, pyGet, pyGetS, pyIterList, listFilterM,
    TROUBLESHOOTING_GUIDE, jO, jA, diagnoseEnvelope, isCleanSuccess,
    b1, b2, b3, b4, except_bind_ok, except_map_ok]

theorem lear_feature_area_clean (v : String) :
    isCleanSuccess (callToolBody "lookup_esu_asu_requirements"
      [("feature_area", jS v)]) = true := rfl

theorem gwc_server_type_clean (v : String) :
    isCleanSuccess (callToolBody "get_weblogic_configuration"
      [("server_type", jS v)]) = true := rfl

theorem gwc_config_area_clean (v : String) :
    isCleanSuccess (callToolBody "get_weblogic_configuration"
      [("config_area", jS v)]) = true := rfl

theorem gcug_utility_area_clean (v : String) :
    isCleanSuccess (callToolBody "get_configuration_utilities_guide"
      [("utility_area", jS v)]) = true := rfl

theorem sjd_doc_type_clean (v : String) :
    isCleanSuccess (callToolBody "search_jde_documentation"
      [("doc_type", jS v)]) = true := rfl

theorem glag_log_type_clean (v : String)
    (hv : v ∉ ["jde_log", "jas_log", "weblogic_log", "server_manager_log",
      "package_build_log", "all"]) :
    isCleanSuccess (callToolBody "get_log_analysis_guidance"
      [("log_type", jS v)]) = true := by
  simp only [List.mem_cons, List.not_mem_nil, or_false, not_or] at hv
  obtain ⟨h1, h2, h3, h4, h5, h6⟩ := hv
  have ball : (v == "all") = false := beq_eq_false_iff_ne.mpr h6
  show isCleanSuccess (get_log_analysis_guidance [("log_type", jS v)]) = true
  unfold get_log_analysis_guidance
  simp [argGet, List.lookup, jS, jvalBeq_str, pyGet, jsonKeyOf, LOG_ANALYSIS,
    jO, isCleanSuccess, ball, except_bind_ok, except_map_ok]

theorem cme_deployment_model_clean (v : String) :
    isCleanSuccess (callToolBody "configure_multi_environment"
      [("deployment_model", jS v)]) = true := rfl

/-! ## Claim theorems -/

/-- C1, counterexample: dispatching `get_environment_configuration` with
an empty argument bag succeeds (no `MissingArgument` error, no `error`
field at all) even though the schema declares `environment` required and
gives it no default — refuting the claim that dispatch never succeeds
with a required argument silently absent. -/
theorem c1_counterexample_required_arg_silently_absent :
    "environment" ∈ requiredOf "get_environment_configuration" ∧
    (argSpecOf "get_environment_configuration" "environment").isSome = true ∧
    declaredDefault "get_environment_configuration" "environment" = none ∧
    call_tool "get_environment_configuration" [] =
      [⟨"text", jO [("environment", JVal.null), ("configuration", jO [])]⟩] ∧
    emptyCallSucceeds "get_environment_configuration" = true :=
  ⟨by decide, rfl, rfl, rfl, rfl⟩

/-- C1, amended: for every registered operation name, dispatching with an
empty argument bag returns a single success envelope with no `error`
field — the dispatcher performs no required-argument validation and never
produces a `MissingArgument` error; required arguments are silently
replaced by code-level defaults or `None`. -/
theorem c1_empty_dispatch_always_succeeds :
    ∀ name ∈ toolNames,
      emptyCallSucceeds name = true ∧ (call_tool name []).length = 1 := by
  decide

/-- C1 witness: the amended theorem instantiated at a registered name. -/
theorem c1_witness :
    "get_installation_sequence" ∈ toolNames ∧
    emptyCallSucceeds "get_installation_sequence" = true ∧
    (call_tool "get_installation_sequence" []).length = 1 := by
  refine ⟨by decide, ?_, ?_⟩
  · exact (c1_empty_dispatch_always_succeeds "get_installation_sequence" (by decide)).1
  · exact (c1_empty_dispatch_always_succeeds "get_installation_sequence" (by decide)).2

/-- C2, counterexample: supplying `component = "bogus_component"`, a
value outside the declared enumeration, to
`research_installation_prerequisites` yields a success envelope (empty
prerequisites, no `InvalidArgument` error, no `error` field), refuting
the claim that out-of-enum values are rejected before resolution. -/
theorem c2_counterexample_out_of_enum_not_rejected :
    declaredEnum "research_installation_prerequisites" "component" =
      some ["deployment_server", "enterprise_server", "html_server", "database", "all"] ∧
    "bogus_component" ∉
      ["deployment_server", "enterprise_server", "html_server", "database", "all"] ∧
    call_tool "research_installation_prerequisites"
        [("component", jS "bogus_component")] =
      [⟨"text", jO [("component", jS "bogus_component"), ("platform", jS "windows"),
        ("prerequisites", jO []), ("notes", prereqNotes)]⟩] ∧
    isCleanSuccess (callToolBody "research_installation_prerequisites"
      [("component", jS "bogus_component")]) = true :=
  ⟨rfl, by decide, rfl, rfl⟩

/-- C2, amended: enumerations are declared in the schemas but never
enforced anywhere in the dispatcher — for every registered operation and
every argument of it that declares an enumeration, supplying any string
value outside the enumeration still returns a success envelope with no
`error` field (no `InvalidArgument` exists); for the cited
`research_installation_prerequisites` operation the lookup miss is made
explicit: the envelope carries empty prerequisites. -/
theorem c2_out_of_enum_succeeds :
    (∀ t ∈ list_tools, ∀ p ∈ t.properties, ∀ es : List String,
      p.enum = some es → ∀ v : String, v ∉ es →
        isCleanSuccess (callToolBody t.name [(p.name, jS v)]) = true) ∧
    (∀ v : String,
      v ∉ ["deployment_server", "enterprise_server", "html_server", "database", "all"] →
      callToolBody "research_installation_prerequisites" [("component", jS v)] =
        .ok (jO [("component", jS v), ("platform", jS "windows"),
          ("prerequisites", jO []), ("notes", prereqNotes)])) := by
  constructor
  · intro t ht p hp es hes v hv
    fin_cases ht <;> fin_cases hp
    -- research_installation_prerequisites: component, platform
    · injection hes with he; subst he; exact rip_component_clean v hv
    · injection hes with he; subst he; exact rip_platform_clean v hv
    -- get_installation_sequence: environment_type
    · injection hes with he; subst he; exact gis_env_type_clean v
    -- get_environment_configuration: environment, component
    · injection hes with he; subst he; exact gec_environment_clean v
    · injection hes with he; subst he; exact gec_component_clean v hv
    -- research_server_manager_config: config_area, operation
    · injection hes with he; subst he; exact rsmc_config_area_clean v hv
    · injection hes with he; subst he; exact rsmc_operation_clean v hv
    -- get_centralized_configuration_guide: scope
    · injection hes with he; subst he; exact gccg_scope_clean v
    -- diagnose_configuration_issue: symptom (no enum), component, environment (no enum)
    · exact Option.noConfusion hes
    · injection hes with he; subst he; exact dci_component_clean v hv
    · exact Option.noConfusion hes
    -- lookup_esu_asu_requirements: feature_area, tools_release (no enum)
    · injection hes with he; subst he; exact lear_feature_area_clean v
    · exact Option.noConfusion hes
    -- get_weblogic_configuration: server_type, config_area
    · injection hes with he; subst he; exact gwc_server_type_clean v
    · injection hes with he; subst he; exact gwc_config_area_clean v
    -- get_configuration_utilities_guide: utility_area
    · injection hes with he; subst he; exact gcug_utility_area_clean v
    -- search_jde_documentation: topic (no enum), doc_type
    · exact Option.noConfusion hes
    · injection hes with he; subst he; exact sjd_doc_type_clean v
    -- get_log_analysis_guidance: log_type, issue_type (no enum)
    · injection hes with he; subst he; exact glag_log_type_clean v hv
    · exact Option.noConfusion hes
    -- configure_multi_environment: deployment_model, environments (no enum)
    · injection hes with he; subst he; exact cme_deployment_model_clean v
    · exact Option.noConfusion hes
  · exact rip_component_payload

/-- C2 witness: the universal part instantiated at the registry's first
operation and its enumerated `platform` argument with an out-of-enum
value, and the payload part at a concrete out-of-enum `component`. -/
theorem c2_witness :
    isCleanSuccess (callToolBody "research_installation_prerequisites"
      [("platform", jS "solaris")]) = true ∧
    ("zzz_not_a_component" ∉
      ["deployment_server", "enterprise_server", "html_server", "database", "all"] ∧
    callToolBody "research_installation_prerequisites"
        [("component", jS "zzz_not_a_component")] =
      .ok (jO [("component", jS "zzz_not_a_component"), ("platform", jS "windows"),
        ("prerequisites", jO []), ("notes", prereqNotes)])) := by
  constructor
  · exact c2_out_of_enum_succeeds.1
      (list_tools.get ⟨0, by decide⟩) (List.get_mem list_tools 0 (by decide))
      ((list_tools.get ⟨0, by decide⟩).properties.get ⟨1, by decide⟩)
      (List.get_mem (list_tools.get ⟨0, by decide⟩).properties 1 (by decide))
      ["windows", "linux", "aix"] rfl "solaris" (by decide)
  · exact ⟨by decide, c2_out_of_enum_succeeds.2 "zzz_not_a_component" (by decide)⟩

/-- C3: the `diagnose_configuration_issue` resolver returns, for every
input symptom and every component with stored issues, exactly the stored
issues whose lowercased stored symptom has a whitespace token occurring
as a substring of the lowercased input, in store order; in particular,
for `html_server` and `"cannot access web client"` the match list starts
with the issue whose stored symptom is `"Cannot access web client"`. -/
theorem c3_diagnose_token_overlap :
    (∀ input : String, ∀ comp ∈ troubleshootingComponents,
      callToolBody "diagnose_configuration_issue"
        [("symptom", jS input), ("component", jS comp)] =
      .ok (diagnoseEnvelope (jS input) (jS comp) (jS "Not specified")
        ((commonIssuesOf comp).filter (tokenOverlapMatch input)))) ∧
    storedSymptom issueCannotAccessWebClient = "Cannot access web client" ∧
    tokenOverlapMatch "cannot access web client" issueCannotAccessWebClient = true ∧
    callToolBody "diagnose_configuration_issue"
      [("symptom", jS "cannot access web client"), ("component", jS "html_server")] =
    .ok (diagnoseEnvelope (jS "cannot access web client") (jS "html_server")
      (jS "Not specified") [issueCannotAccessWebClient, issueSlowWebClient]) := by
  refine ⟨?_, rfl, rfl, rfl⟩
  intro input comp hcomp
  exact diagnose_eval input comp (commonIssuesOf comp)
    (troubleshootingStore_eval comp hcomp)
    (storedIssuesHaveSymptom comp hcomp)

/-- C3 witness: the general matching theorem instantiated at the spec's
concrete query. -/
theorem c3_witness :
    "html_server" ∈ troubleshootingComponents ∧
    callToolBody "diagnose_configuration_issue"
      [("symptom", jS "cannot access web client"), ("component", jS "html_server")] =
    .ok (diagnoseEnvelope (jS "cannot access web client") (jS "html_server")
      (jS "Not specified")
      ((commonIssuesOf "html_server").filter
        (tokenOverlapMatch "cannot access web client"))) :=
  ⟨by decide,
   c3_diagnose_token_overlap.1 "cannot access web client" "html_server" (by decide)⟩

/-- C4: whenever zero stored issues of a component match the input under
the token-overlap rule, the envelope is still a success that states `"No
exact match - use general troubleshooting"` and carries the constant
(input-independent) `generalSteps` list. -/
theorem c4_no_match_generic_fallback :
    (∀ input : String, ∀ comp ∈ troubleshootingComponents,
      (commonIssuesOf comp).filter (tokenOverlapMatch input) = [] →
      callToolBody "diagnose_configuration_issue"
        [("symptom", jS input), ("component", jS comp)] =
      .ok (jO [
        ("symptom", jS input),
        ("component", jS comp),
        ("environment", jS "Not specified"),
        ("matching_issues", jS "No exact match - use general troubleshooting"),
        ("general_steps", generalSteps)])) ∧
    callToolBody "diagnose_configuration_issue"
      [("symptom", jS "zzz-no-such-symptom"), ("component", jS "html_server")] =
    .ok (jO [
      ("symptom", jS "zzz-no-such-symptom"),
      ("component", jS "html_server"),
      ("environment", jS "Not specified"),
      ("matching_issues", jS "No exact match - use general troubleshooting"),
      ("general_steps", generalSteps)]) := by
  refine ⟨?_, rfl⟩
  intro input comp hcomp hempty
  have h := diagnose_eval input comp (commonIssuesOf comp)
    (troubleshootingStore_eval comp hcomp)
    (storedIssuesHaveSymptom comp hcomp)
  rw [hempty] at h
  exact h

/-- C4 witness: the no-match theorem instantiated at the spec's concrete
non-matching query. -/
theorem c4_witness :
    "html_server" ∈ troubleshootingComponents ∧
    (commonIssuesOf "html_server").filter
      (tokenOverlapMatch "zzz-no-such-symptom") = [] ∧
    callToolBody "diagnose_configuration_issue"
      [("symptom", jS "zzz-no-such-symptom"), ("component", jS "html_server")] =
    .ok (jO [
      ("symptom", jS "zzz-no-such-symptom"),
      ("component", jS "html_server"),
      ("environment", jS "Not specified"),
      ("matching_issues", jS "No exact match - use general troubleshooting"),
      ("general_steps", generalSteps)]) :=
  ⟨by decide, rfl,
   c4_no_match_generic_fallback.1 "zzz-no-such-symptom" "html_server" (by decide) rfl⟩

/-- C5: `get_environment_configuration` with `PD920_production` (and the
defaulted `component = "all"`) returns the full stored configuration
tree, and any environment name outside the store yields a success
envelope with an empty configuration mapping — on both the stdio
dispatcher and the HTTP `execute_tool` — never an error. -/
theorem c5_environment_configuration_lookup :
    callToolBody "get_environment_configuration"
        [("environment", jS "PD920_production")] =
      .ok (jO [("environment", jS "PD920_production"), ("configuration", envPD920)]) ∧
    pyGetItem ENVIRONMENT_CONFIG (jS "PD920_production") = .ok envPD920 ∧
    (∀ env : String,
      env ∉ ["PD920_production", "PY920_test", "DV920_development"] →
      callToolBody "get_environment_configuration" [("environment", jS env)] =
          .ok (jO [("environment", jS env), ("configuration", jO [])]) ∧
      execute_tool (jS "get_environment_configuration")
          (jO [("environment", jS env)]) =
          .ok (jO [("environment", jS env), ("configuration", jO [])])) := by
  refine ⟨rfl, rfl, ?_⟩
  intro env henv
  simp only [List.mem_cons, List.not_mem_nil, or_false, not_or] at henv
  obtain ⟨h1, h2, h3⟩ := henv
  have b1 : (env == "PD920_production") = false := beq_eq_false_iff_ne.mpr h1
  have b2 : (env == "PY920_test") = false := beq_eq_false_iff_ne.mpr h2
  have b3 : (env == "DV920_development") = false := beq_eq_false_iff_ne.mpr h3
  constructor
  · show get_environment_configuration [("environment", jS env)] = _
    unfold get_environment_configuration
    simp [argGet0, argGet, List.lookup, jS, jvalBeq_str,
      pyGet, ENVIRONMENT_CONFIG, jO, b1, b2, b3, except_bind_ok, except_map_ok]
  · simp [execute_tool, pyGetS, pyGet, List.lookup, jS, jvalBeq_str,
      ENVIRONMENT_CONFIG, jO, b1, b2, b3, except_bind_ok, except_map_ok]

/-- C5 witness: the miss case instantiated at a concrete unregistered
environment name. -/
theorem c5_witness :
    "XX920_unknown" ∉ ["PD920_production", "PY920_test", "DV920_development"] ∧
    callToolBody "get_environment_configuration"
        [("environment", jS "XX920_unknown")] =
      .ok (jO [("environment", jS "XX920_unknown"), ("configuration", jO [])]) ∧
    execute_tool (jS "get_environment_configuration")
        (jO [("environment", jS "XX920_unknown")]) =
      .ok (jO [("environment", jS "XX920_unknown"), ("configuration", jO [])]) :=
  ⟨by decide,
   (c5_environment_configuration_lookup.2.2 "XX920_unknown" (by decide)).1,
   (c5_environment_configuration_lookup.2.2 "XX920_unknown" (by decide)).2⟩

/-- C6: on the authenticated HTTP adapter, `GET /health` answers 200 with
no `Authorization` header even when a token is configured; every other
GET or POST route without a passing bearer check answers 401; and with no
token configured the auth check passes for every request. -/
theorem c6_bearer_token_gate :
    (∀ (tok hdr : String) (ps : ProcState),
      (do_GET tok hdr "/health" ps).status = 200) ∧
    (∀ (tok hdr path : String) (ps : ProcState),
      tok ≠ "" → check_auth tok hdr = false → path ≠ "/health" →
      (do_GET tok hdr path ps).status = 401) ∧
    (∀ (tok hdr path : String) (body : Except String JVal),
      tok ≠ "" → check_auth tok hdr = false →
      (do_POST tok hdr path body).status = 401) ∧
    (∀ hdr : String, check_auth "" hdr = true) := by
  refine ⟨?_, ?_, ?_, ?_⟩
  · intro tok hdr ps
    rfl
  · intro tok hdr path ps _ hauth hpath
    simp [do_GET, hauth, beq_iff_eq, hpath]
  · intro tok hdr path body _ hauth
    simp [do_POST, hauth]
  · intro hdr
    rfl

/-- C6 witness: a configured token, a request with no header. -/
theorem c6_witness :
    ("jde-secret" ≠ "" ∧ check_auth "jde-secret" "" = false) ∧
    (do_GET "jde-secret" "" "/health" ⟨[], ""⟩).status = 200 ∧
    (do_GET "jde-secret" "" "/tools" ⟨[], ""⟩).status = 401 ∧
    (do_POST "jde-secret" "" "/tools/call" (.ok (jO []))).status = 401 ∧
    check_auth "" "" = true := by
  refine ⟨⟨by decide, rfl⟩, ?_, ?_, ?_, rfl⟩
  · exact c6_bearer_token_gate.1 "jde-secret" "" ⟨[], ""⟩
  · exact c6_bearer_token_gate.2.1 "jde-secret" "" "/tools" ⟨[], ""⟩
      (by decide) rfl (by decide)
  · exact c6_bearer_token_gate.2.2.1 "jde-secret" "" "/tools/call" (.ok (jO []))
      (by decide) rfl

/-- C7, counterexample: a request body that `json.loads` rejects is
answered with HTTP status 500 by the generic exception handler, not with
the claimed 400 — the adapter has no 400 path at all. -/
theorem c7_counterexample_malformed_body_is_500 :
    (do_POST "" "" "/tools/call"
      (.error "Expecting value: line 1 column 1 (char 0)")).status = 500 ∧
    (do_POST "" "" "/tools/call"
      (.error "Expecting value: line 1 column 1 (char 0)")).status ≠ 400 :=
  ⟨rfl, by decide⟩

/-- C7, amended: every domain-level outcome of a well-formed
`/tools/call` request (unknown operation names included) is answered with
status 200; an unparsable body — like any exception out of the dispatch —
is answered with status 500 carrying the exception message; and 404 is
answered exactly for unrecognized paths. -/
theorem c7_http_status_mapping :
    (∀ (tok hdr : String) (data r : JVal),
      check_auth tok hdr = true →
      toolsCallOutcome (.ok data) = .ok r →
      do_POST tok hdr "/tools/call" (.ok data) = ⟨200, jO [("result", r)]⟩) ∧
    (∀ (tok hdr msg : String),
      check_auth tok hdr = true →
      do_POST tok hdr "/tools/call" (.error msg) = ⟨500, jO [("error", jS msg)]⟩) ∧
    (∀ (tok hdr n : String),
      check_auth tok hdr = true → n ∉ toolNames →
      do_POST tok hdr "/tools/call" (.ok (jO [("name", jS n)])) =
        ⟨200, jO [("result", jO [("error", jS ("Unknown tool: " ++ n))])]⟩) ∧
    (∀ (tok hdr path : String) (body : Except String JVal),
      check_auth tok hdr = true → path ≠ "/tools/call" →
      do_POST tok hdr path body = ⟨404, jO [("error", jS "Not found")]⟩) ∧
    (∀ (tok hdr path : String) (ps : ProcState),
      check_auth tok hdr = true → path ∉ getRoutes →
      do_GET tok hdr path ps = ⟨404, jO [("error", jS "Not found")]⟩) := by
  refine ⟨?_, ?_, ?_, ?_, ?_⟩
  · intro tok hdr data r hauth hout
    simp [do_POST, hauth, hout]
  · intro tok hdr msg hauth
    simp [do_POST, hauth]
    rfl
  · intro tok hdr n hauth hn
    have hout : toolsCallOutcome (.ok (jO [("name", jS n)])) =
        .ok (jO [("error", jS ("Unknown tool: " ++ n))]) := by
      show execute_tool (jS n) (jO []) = _
      exact execute_tool_unknown n hn (jO [])
    simp [do_POST, hauth, hout]
  · intro tok hdr path body hauth hpath
    simp [do_POST, hauth, beq_iff_eq, hpath]
  · intro tok hdr path ps hauth hpath
    simp only [getRoutes, List.mem_cons, List.not_mem_nil, or_false, not_or] at hpath
    obtain ⟨p1, p2, p3, p4, p5, p6, p7⟩ := hpath
    simp [do_GET, hauth, beq_iff_eq, p1, p2, p3, p4, p5, p6, p7]

/-- C7 witness: the 500-on-parse-failure case at a concrete input. -/
theorem c7_witness :
    check_auth "" "" = true ∧
    do_POST "" "" "/tools/call" (.error "Expecting value: line 1 column 1 (char 0)") =
      ⟨500, jO [("error", jS "Expecting value: line 1 column 1 (char 0)")]⟩ :=
  ⟨rfl, c7_http_status_mapping.2.1 "" "" "Expecting value: line 1 column 1 (char 0)" rfl⟩

/-- C8: for every unregistered operation name, the stdio dispatch and the
HTTP dispatch produce content-equivalent `UnknownOperation` envelopes —
the identical payload `{"error": "Unknown tool: <name>"}` — and both
return it as a value (status-wise a normal response), never as a
transport fault. -/
theorem c8_unknown_operation_equivalence :
    ∀ n : String, n ∉ toolNames →
      ∀ (args : List (String × JVal)) (httpArgs : JVal),
        callToolBody n args = .ok (jO [("error", jS ("Unknown tool: " ++ n))]) ∧
        call_tool n args = [⟨"text", jO [("error", jS ("Unknown tool: " ++ n))]⟩] ∧
        execute_tool (jS n) httpArgs =
          .ok (jO [("error", jS ("Unknown tool: " ++ n))]) := by
  intro n hn args httpArgs
  have hstdio := callToolBody_unknown n hn args
  refine ⟨hstdio, ?_, execute_tool_unknown n hn httpArgs⟩
  simp [call_tool, hstdio]

/-- C8 witness: the equivalence instantiated at a concrete unregistered
name. -/
theorem c8_witness :
    "frobnicate_tool" ∉ toolNames ∧
    callToolBody "frobnicate_tool" [] =
      .ok (jO [("error", jS "Unknown tool: frobnicate_tool")]) ∧
    call_tool "frobnicate_tool" [] =
      [⟨"text", jO [("error", jS "Unknown tool: frobnicate_tool")]⟩] ∧
    execute_tool (jS "frobnicate_tool") (jO []) =
      .ok (jO [("error", jS "Unknown tool: frobnicate_tool")]) := by
  have h := c8_unknown_operation_equivalence "frobnicate_tool" (by decide) [] (jO [])
  exact ⟨by decide, h.1, h.2.1, h.2.2⟩

/-- C9: rendering any registered prompt never fails: it returns a
description and exactly one user message for every argument bag, an
absent argument renders as the placeholder `"None"` (padding the bag with
that placeholder leaves the rendered message unchanged), and the result
is a pure function of name and arguments (it is a Lean function). -/
theorem c9_prompt_rendering_total :
    (∀ name ∈ promptNames, ∀ args : Option (List (String × JVal)),
      ∃ d t, get_prompt name args = ⟨d, [⟨"user", t⟩]⟩) ∧
    (∀ (name : String) (args : List (String × JVal)) (k : String),
      List.lookup k args = none →
      (get_prompt name (some args)).messages =
        (get_prompt name (some (args ++ [(k, jS "None")]))).messages) ∧
    get_prompt "troubleshoot-deployment" (some []) =
      ⟨"Troubleshoot None",
       [⟨"user", "Troubleshoot deployment of None to None. Error: None"⟩]⟩ := by
  refine ⟨?_, ?_, rfl⟩
  · intro name hname args
    fin_cases hname <;> exact ⟨_, _, rfl⟩
  · intro name args k hk
    by_cases h1 : name = "new-environment-setup"
    · simp [get_prompt, h1, fmtArg_pad, hk]
    · by_cases h2 : name = "troubleshoot-deployment"
      · simp [get_prompt, h1, h2, fmtArg_pad, hk]
      · by_cases h3 : name = "upgrade-planning"
        · simp [get_prompt, h1, h2, h3, fmtArg_pad, hk]
        · by_cases h4 : name = "security-configuration"
          · simp [get_prompt, h1, h2, h3, h4, fmtArg_pad, hk]
          · simp [get_prompt, h1, h2, h3, h4]

/-- C9 witness: rendering with every required argument absent. -/
theorem c9_witness :
    "security-configuration" ∈ promptNames ∧
    (∃ d t, get_prompt "security-configuration" (some []) = ⟨d, [⟨"user", t⟩]⟩) ∧
    (get_prompt "security-configuration" (some [])).messages =
      (get_prompt "security-configuration"
        (some ([] ++ [("security_level", jS "None")]))).messages :=
  ⟨by decide,
   c9_prompt_rendering_total.1 "security-configuration" (by decide) (some []),
   c9_prompt_rendering_total.2.1 "security-configuration" [] "security_level" rfl⟩

/-- C10: `call_tool` returns exactly one text content item for every
operation name and argument bag, and any exception raised inside a
resolver branch is caught and converted into a `{"error": <message>}`
payload rather than escaping to the transport. -/
theorem c10_call_tool_total :
    ∀ (name : String) (args : List (String × JVal)),
      (call_tool name args).length = 1 ∧
      ∀ e, callToolBody name args = .error e →
        call_tool name args = [⟨"text", jO [("error", jS e)]⟩] := by
  intro name args
  refine ⟨?_, ?_⟩
  · cases h : callToolBody name args <;> simp [call_tool, h]
  · intro e he
    simp [call_tool, he]

/-- C10 witness: a non-string symptom makes the diagnosis resolver raise
`AttributeError`; the envelope still is one item carrying the message. -/
theorem c10_witness :
    callToolBody "diagnose_configuration_issue"
      [("symptom", jN 5), ("component", jS "html_server")] =
      .error "AttributeError: int object has no attribute lower" ∧
    (call_tool "diagnose_configuration_issue"
      [("symptom", jN 5), ("component", jS "html_server")]).length = 1 ∧
    call_tool "diagnose_configuration_issue"
      [("symptom", jN 5), ("component", jS "html_server")] =
      [⟨"text", jO [("error",
        jS "AttributeError: int object has no attribute lower")]⟩] :=
  ⟨rfl,
   (c10_call_tool_total "diagnose_configuration_issue"
     [("symptom", jN 5), ("component", jS "html_server")]).1,
   (c10_call_tool_total "diagnose_configuration_issue"
     [("symptom", jN 5), ("component", jS "html_server")]).2
     "AttributeError: int object has no attribute lower" rfl⟩

end JdeMcp
